import Mathlib

/-!
Verification development for the `lambda_ai` analytics engine of the
cloud-based-finance-app repository.

Shallow embedding conventions:
* Python `float` values are modelled as `ℚ` (exact real arithmetic; the
  engine's own `sf` helper already maps NaN/Inf to 0, so no IEEE special
  values flow through the analysed code paths).
* A JSON field that may be missing or `null`/non-numeric is modelled as an
  `Option`; the source's `sf`/`.get(k, default)` accesses become `getD`.
* The stdlib primitives `statistics.stdev` and `math.sqrt`, the `md5`
  digest, and the wall clock are external to the analysed algorithms and
  are passed in as function parameters (`Env`).
* Python's stable `list.sort` / `sorted` is modelled by Mathlib's stable
  `List.insertionSort`.
* `uuid4`-based card ids are modelled by a deterministic fresh-name supply
  (`<kind>_<index>`); each card-builder uses a distinct kind tag, so ids
  are unique per result, which is the property the source relies on.
-/

namespace FinApp

/-! ### ai_utils.py -/

/-- Python `sf` — safe float: `None`/NaN/Inf/unparsable (modelled as `none`) maps to 0. -/
def sf (v : Option ℚ) : ℚ := v.getD 0

/-- Python `clamp(v, lo, hi) = max(lo, min(hi, v))`. -/
def clamp (v lo hi : ℚ) : ℚ := max lo (min hi v)

/-- Integer version of `clamp`, for score arithmetic done on Python ints. -/
def clampZ (v lo hi : ℤ) : ℤ := max lo (min hi v)

/-- Python `int(x)` on a float: truncation toward zero. -/
def pyTrunc (q : ℚ) : ℤ := if 0 ≤ q then ⌊q⌋ else ⌈q⌉

/-- Python `round(x)` to an integer: round-half-to-even (banker's rounding). -/
def pyRoundZ (q : ℚ) : ℤ :=
  let f := ⌊q⌋
  let r := q - (f : ℚ)
  if r < 1/2 then f
  else if 1/2 < r then f + 1
  else if f % 2 = 0 then f else f + 1

/-- Python `round(x, d)` for `d` decimal digits. -/
def pyRound (q : ℚ) (d : ℕ) : ℚ := (pyRoundZ (q * 10 ^ d) : ℚ) / 10 ^ d

/-- Python `confidence(sample_size, signal_strength)` from ai_utils.py. -/
def confidence (sampleSize : ℕ) (signalStrength : ℚ) : ℤ :=
  let base : ℤ := min 70 ((sampleSize : ℤ) * 12)
  let boost : ℚ := clamp (signalStrength * 30) 0 30
  clampZ (pyTrunc ((base : ℚ) + boost)) 10 98

/-- Python `statistics.mean` (callers guard non-emptiness; `[] ↦ 0` via `ℚ`'s total division). -/
def mean (l : List ℚ) : ℚ := l.sum / l.length

/-- Python `statistics.median` on an already sorted list. -/
def medianSorted (s : List ℚ) : ℚ :=
  let n := s.length
  if n % 2 = 1 then s.getD (n / 2) 0
  else (s.getD (n / 2 - 1) 0 + s.getD (n / 2) 0) / 2

/-! ### Calendar model.

Python's `datetime.date` arithmetic (proleptic Gregorian) is embedded
directly: `rataDie` counts days from 0000-12-31, so day differences and
weekday computations agree with `datetime`. -/

def isLeap (y : ℕ) : Bool := (y % 4 == 0 && y % 100 != 0) || (y % 400 == 0)

/-- Length of month `m` of year `y`; equals `(date(y, m+1, 1) - date(y, m, 1)).days`. -/
def monthLength (y m : ℕ) : ℕ :=
  if m = 2 then (if isLeap y then 29 else 28)
  else if m = 4 ∨ m = 6 ∨ m = 9 ∨ m = 11 then 30 else 31

def daysBeforeMonth (y m : ℕ) : ℕ :=
  ((List.range (m - 1)).map (fun k => monthLength y (k + 1))).sum

/-- Day number of `y-m-d` in the proleptic Gregorian calendar (0001-01-01 ↦ 1). -/
def rataDie (y m d : ℕ) : ℕ :=
  365 * (y - 1) + ((y - 1) / 4 - (y - 1) / 100 + (y - 1) / 400) + daysBeforeMonth y m + d

/-- Python `datetime.weekday()`: Monday = 0. 0001-01-01 was a Monday. -/
def pyWeekday (y m d : ℕ) : ℕ := (rataDie y m d + 6) % 7

/-- Python `datetime.strptime(s[:10], "%Y-%m-%d")`, as the (year, month, day) triple;
`none` models the `ValueError` path. -/
def parseDate10 (s : String) : Option (ℕ × ℕ × ℕ) :=
  match (s.take 10).splitOn "-" with
  | [ys, ms, ds] =>
    match ys.toNat?, ms.toNat?, ds.toNat? with
    | some y, some m, some d =>
      if 1 ≤ y ∧ 1 ≤ m ∧ m ≤ 12 ∧ 1 ≤ d ∧ d ≤ monthLength y m then some (y, m, d)
      else none
    | _, _, _ => none
  | _ => none

/-- A parsed date as its rata-die day number (for day differences and sorting). -/
def parseDateR (s : String) : Option ℕ :=
  (parseDate10 s).map (fun t => rataDie t.1 t.2.1 t.2.2)

/-! ### Input data model (payload rows). -/

structure Transaction where
  merchant : Option String
  amount : Option ℚ
  date : Option String
  category : Option String
deriving DecidableEq

structure MonthlyTotal where
  month : Option String
  total : Option ℚ
  categories : Option (List (String × ℚ))
deriving DecidableEq

structure Budget where
  category : Option String
  limit : Option ℚ
  spent : Option ℚ
  pct : Option ℚ
deriving DecidableEq

structure Goal where
  title : Option String
  target_amount : Option ℚ
  current_amount : Option ℚ
  status : Option String
deriving DecidableEq

structure FinancialHealth where
  period_income : Option ℚ
  period_spent : Option ℚ
  period_net : Option ℚ
  savings_rate : Option ℚ
deriving DecidableEq

/-- Python `(m.get("categories") or {}).get(cat, 0)` on the association-list model of the
per-category map. -/
def dictGet (m : List (String × ℚ)) (k : String) : ℚ :=
  ((m.find? (fun p => p.1 == k)).map Prod.snd).getD 0

/-- Lexicographic code-point order on strings (Python's `str` comparison),
as an executable Boolean so that concrete runs reduce in the kernel. -/
def strLEAux : List Char → List Char → Bool
  | [], _ => true
  | _ :: _, [] => false
  | c :: cs, d :: ds =>
    if c.val < d.val then true else if d.val < c.val then false else strLEAux cs ds

def strLE (a b : String) : Bool := strLEAux a.data b.data

/-- Sort key `lambda x: x.get("month", "")`; `sorted` is stable, as is
`List.insertionSort`. -/
def monthLE (a b : MonthlyTotal) : Prop := strLE (a.month.getD "") (b.month.getD "") = true

instance : DecidableRel monthLE :=
  fun a b => inferInstanceAs (Decidable (strLE (a.month.getD "") (b.month.getD "") = true))

/-- Union of category keys over a list of monthly rows. Python collects them in a
`set` (iteration order unspecified); the model fixes first-appearance order. -/
def allCatsOf (monthly : List MonthlyTotal) : List String :=
  monthly.foldl
    (fun acc m =>
      ((m.categories.getD []).map Prod.fst).foldl
        (fun acc2 k => if k ∈ acc2 then acc2 else acc2 ++ [k]) acc)
    []

/-! ### forecast_engine.py -/

namespace ForecastEngine

/-- Python `ForecastEngine.ema`. -/
def ema (values : List ℚ) (alpha : ℚ) : ℚ :=
  match values with
  | [] => 0
  | v :: rest => rest.foldl (fun result x => alpha * x + (1 - alpha) * result) v

structure LinReg where
  slope : ℚ
  intercept : ℚ
  r_squared : ℚ
deriving DecidableEq

/-- Python `ForecastEngine.linear_regression`. -/
def linear_regression (values : List ℚ) : LinReg :=
  let n := values.length
  if n < 2 then { slope := 0, intercept := values.headD 0, r_squared := 0 }
  else
    let xs : List ℚ := (List.range n).map (fun i => (i : ℚ))
    let xMean := xs.sum / n
    let yMean := values.sum / n
    let num := ((xs.zip values).map (fun p => (p.1 - xMean) * (p.2 - yMean))).sum
    let den := (xs.map (fun xi => (xi - xMean) ^ 2)).sum
    let slope := if den ≠ 0 then num / den else 0
    let intercept := yMean - slope * xMean
    let yPred := xs.map (fun xi => slope * xi + intercept)
    let ssRes := ((values.zip yPred).map (fun p => (p.1 - p.2) ^ 2)).sum
    let ssTot := (values.map (fun yi => (yi - yMean) ^ 2)).sum
    let r2 := if 0 < ssTot then 1 - ssRes / ssTot else 0
    { slope := slope, intercept := intercept, r_squared := max 0 r2 }

structure Seasonality where
  seasonal_factor : ℚ
  same_month_last_year : ℚ
  direction : String
deriving DecidableEq

/-- Python `ForecastEngine.detect_seasonality` (threshold fixed at its default 0.15, as in
the only call site). The Python guard `if same_month_prev and same_month_prev > 0`
is truthiness on a float, i.e. `prev ≠ 0 ∧ prev > 0`, i.e. `0 < prev`. -/
def detect_seasonality (values : List ℚ) : Option Seasonality :=
  if values.length < 12 then none
  else
    let current := values.getLastD 0
    let prev := values.getD (values.length - 12) 0
    if 0 < prev then
      let ratio := current / prev
      if 15/100 < |ratio - 1| then
        some { seasonal_factor := pyRound ratio 2
               same_month_last_year := pyRound prev 2
               direction := if 1 < ratio then "higher" else "lower" }
      else none
    else none

/-- The totals, sorted by month key, passed through `sf` — the `values` list of
`ForecastEngine.forecast`. -/
def sortedValues (monthly : List MonthlyTotal) : List ℚ :=
  (List.insertionSort monthLE monthly).map (fun m => sf m.total)

/-- Python `recent_avg = statistics.mean(values[-3:]) if n >= 3 else statistics.mean(values)`. -/
def recent_avg (values : List ℚ) : ℚ :=
  if 3 ≤ values.length then mean (values.drop (values.length - 3)) else mean values

/-- The blended estimate of `ForecastEngine.forecast` after the 0.5×/2.0× clamp and
*before* the seasonality multiplier: EMA(α=0.35)·0.6 + next-point regression·0.4,
clamped to `[recent_avg·0.5, recent_avg·2.0]`. -/
def blendPreSeason (values : List ℚ) : ℚ :=
  let emaEstimate := ema values (35/100)
  let reg := linear_regression values
  let lrEstimate := reg.slope * values.length + reg.intercept
  let blended := emaEstimate * (6/10) + lrEstimate * (4/10)
  clamp blended (recent_avg values * (5/10)) (recent_avg values * 2)

structure Components where
  ema : ℚ
  linear_regression : ℚ
  r_squared : ℚ
deriving DecidableEq

structure Forecast where
  next_month_estimate : ℚ
  trend : String
  trend_pct : ℚ
  confidence_score : ℤ
  method : String
  components : Option Components
  seasonality : Option Seasonality
  category_forecasts : List (String × ℚ)
deriving DecidableEq

/-- Python `ForecastEngine.forecast`. Early-return dicts omit some keys; those are modelled
by the neutral defaults (`0` / `none` / `[]`), matching the `.get(..., default)`
accesses of all downstream consumers. -/
def forecast (monthly : List MonthlyTotal) : Forecast :=
  if monthly = [] then
    { next_month_estimate := 0, trend := "stable", trend_pct := 0, confidence_score := 10
      method := "none", components := none, seasonality := none, category_forecasts := [] }
  else
    let values := sortedValues monthly
    let n := values.length
    if n < 2 then
      { next_month_estimate := pyRound (values.headD 0) 2, trend := "stable", trend_pct := 0
        confidence_score := 15, method := "single_value", components := none
      , seasonality := none, category_forecasts := [] }
    else
      let emaEstimate := ema values (35/100)
      let reg := linear_regression values
      let lrEstimate := reg.slope * n + reg.intercept
      let recentAvg := recent_avg values
      let blended := blendPreSeason values
      let trend :=
        if 3 ≤ n then
          let recentDirection := values.getLastD 0 - values.getD (n - 3) 0
          if recentAvg * (5/100) < recentDirection then "up"
          else if recentDirection < -(recentAvg * (5/100)) then "down"
          else "stable"
        else
          if values.getD (n - 2) 0 < values.getLastD 0 then "up"
          else if values.getLastD 0 < values.getD (n - 2) 0 then "down"
          else "stable"
      let pctChange :=
        if 0 < values.getD (n - 2) 0 then
          (values.getLastD 0 - values.getD (n - 2) 0) / values.getD (n - 2) 0 * 100
        else 0
      let conf := confidence n reg.r_squared
      let seasonality := detect_seasonality values
      let blendedFinal :=
        match seasonality with
        | some s => blended * ((s.seasonal_factor + 1) / 2)
        | none => blended
      let catForecasts :=
        if (monthly.getLastD ⟨none, none, none⟩).categories.isSome then
          (allCatsOf monthly).filterMap (fun cat =>
            let catVals := (List.insertionSort monthLE monthly).map
              (fun m => dictGet (m.categories.getD []) cat)
            if catVals.any (fun v => decide (0 < v)) then
              some (cat, pyRound (ema catVals (35/100)) 2)
            else none)
        else []
      { next_month_estimate := pyRound blendedFinal 2, trend := trend
        trend_pct := pyRound pctChange 1, confidence_score := conf, method := "ema_lr_blend"
        components := some { ema := pyRound emaEstimate 2
                             linear_regression := pyRound lrEstimate 2
                             r_squared := pyRound reg.r_squared 3 }
        seasonality := seasonality, category_forecasts := catForecasts }

end ForecastEngine

/-! ### anomaly_detector.py -/

namespace AnomalyDetector

/-- Defaults of `ANOMALY_Z_THRESHOLD` / `ANOMALY_IQR_FACTOR` from ai_config.py
(the env vars are unset in the deployment model; `detect` is always called with
its defaults). -/
def Z_THRESHOLD : ℚ := 2

def IQR_FACTOR : ℚ := 3/2

structure Stats where
  mean : ℚ
  std : ℚ
  median : ℚ
  q1 : ℚ
  q3 : ℚ
  iqr : ℚ
  count : ℕ

/-- Python `AnomalyDetector._calc_stats`. `stdev` is the external `statistics.stdev`
primitive (sample standard deviation), passed in as a parameter. -/
def _calc_stats (stdev : List ℚ → ℚ) (values : List ℚ) : Option Stats :=
  if values.length < 2 then none
  else
    let s := List.insertionSort (fun a b : ℚ => a ≤ b) values
    let n := s.length
    let q1v := s.getD (n / 4) 0
    let q3v := s.getD (3 * n / 4) 0
    some { mean := mean s, std := stdev s, median := medianSorted s
           q1 := q1v, q3 := q3v, iqr := q3v - q1v, count := n }

def catOf (tx : Transaction) : String := tx.category.getD "Diger"

def merchOf (tx : Transaction) : String := tx.merchant.getD "Bilinmiyor"

/-- Python `defaultdict(list)` grouping: keys in first-appearance order, values appended
in transaction order (matches Python dict insertion order). -/
def upsertQ (k : String) (v : ℚ) : List (String × List ℚ) → List (String × List ℚ)
  | [] => [(k, [v])]
  | (k2, vs) :: rest =>
    if k2 = k then (k2, vs ++ [v]) :: rest else (k2, vs) :: upsertQ k v rest

def groupAssoc (keyOf : Transaction → String) (txs : List Transaction) :
    List (String × List ℚ) :=
  txs.foldl (fun acc tx => upsertQ (keyOf tx) (sf tx.amount) acc) []

def statsFor (stdev : List ℚ → ℚ) (groups : List (String × List ℚ)) :
    List (String × Option Stats) :=
  groups.map (fun p => (p.1, _calc_stats stdev p.2))

def lookupStats (m : List (String × Option Stats)) (k : String) : Option Stats :=
  ((m.find? (fun p => p.1 == k)).map Prod.snd).getD none

structure Anomaly where
  merchant : String
  amount : ℚ
  date : String
  category : String
  z_score : ℚ
  iqr_flag : Bool
  detection_method : String
  severity : String
deriving DecidableEq

/-- The dedup key `f"{merchant}|{amt}|{tx_date}"`, modelled as the underlying
(merchant, raw amount, date) triple rather than its string rendering. -/
abbrev DedupKey := String × ℚ × String

def txKey (tx : Transaction) : DedupKey := (merchOf tx, sf tx.amount, tx.date.getD "")

/-- The per-transaction body of the detection loop: the four candidate detectors,
accumulating `(z_score, methods)`; returns `none` when no method triggers. -/
def evalTx (catStats merchStats : List (String × Option Stats))
    (globalStats : Option Stats) (tx : Transaction) : Option Anomaly :=
  let amt := sf tx.amount
  let cat := catOf tx
  let merchant := merchOf tx
  let txDate := tx.date.getD ""
  let cs := lookupStats catStats cat
  let p1 : ℚ × List String :=
    match cs with
    | some c =>
      if 0 < c.std then
        let z := (amt - c.mean) / c.std
        (max 0 z, if Z_THRESHOLD < z then ["category_zscore"] else [])
      else (0, [])
    | none => (0, [])
  let ms := lookupStats merchStats merchant
  let p2 : ℚ × List String :=
    match ms with
    | some c =>
      if 0 < c.std ∧ 3 ≤ c.count then
        let z := (amt - c.mean) / c.std
        (max p1.1 z, if Z_THRESHOLD < z then p1.2 ++ ["merchant_zscore"] else p1.2)
      else p1
    | none => p1
  let iqrFlag : Bool :=
    match cs with
    | some c => decide (0 < c.iqr ∧ c.q3 + IQR_FACTOR * c.iqr < amt)
    | none => false
  let p3 : ℚ × List String := if iqrFlag then (p2.1, p2.2 ++ ["iqr"]) else p2
  let p4 : ℚ × List String :=
    match globalStats with
    | some c =>
      if 0 < c.std then
        let z := (amt - c.mean) / c.std
        if Z_THRESHOLD + 1/2 < z then (max p3.1 z, p3.2 ++ ["global_zscore"]) else p3
      else p3
    | none => p3
  if p4.2 = [] then none
  else
    some { merchant := merchant, amount := pyRound amt 2, date := txDate, category := cat
           z_score := pyRound p4.1 2, iqr_flag := iqrFlag
           detection_method := String.intercalate "+" p4.2
           severity := if 3 < p4.1 ∨ (iqrFlag ∧ 2 < p4.1) then "HIGH" else "MEDIUM" }

/-- The detection loop with its `seen` dedup set. The second component of each
result pair is the dedup key of the transaction that produced the anomaly
(ghost data: `detect` projects it away). -/
def detectLoop (catStats merchStats : List (String × Option Stats))
    (globalStats : Option Stats) :
    List Transaction → List DedupKey → List (Anomaly × DedupKey)
  | [], _ => []
  | tx :: rest, seen =>
    let key := txKey tx
    if key ∈ seen then detectLoop catStats merchStats globalStats rest seen
    else
      match evalTx catStats merchStats globalStats tx with
      | none => detectLoop catStats merchStats globalStats rest seen
      | some a => (a, key) :: detectLoop catStats merchStats globalStats rest (key :: seen)

/-- Severity part of the sort key: `-1 if severity == "HIGH" else 0`. -/
def sevRank (a : Anomaly) : ℤ := if a.severity = "HIGH" then -1 else 0

/-- Ascending order on the sort key `(sevRank, -z_score)`; equal keys keep list
order under stable sort, matching Python. -/
def anomLE (a b : Anomaly) : Prop :=
  sevRank a < sevRank b ∨ (sevRank a = sevRank b ∧ b.z_score ≤ a.z_score)

instance : DecidableRel anomLE :=
  fun a b => inferInstanceAs
    (Decidable (sevRank a < sevRank b ∨ (sevRank a = sevRank b ∧ b.z_score ≤ a.z_score)))

def pairLE (x y : Anomaly × DedupKey) : Prop := anomLE x.1 y.1

instance : DecidableRel pairLE := fun x y => inferInstanceAs (Decidable (anomLE x.1 y.1))

/-- Python `AnomalyDetector.detect` with the dedup key of each reported anomaly kept
alongside it. -/
def detectWithKeys (stdev : List ℚ → ℚ) (txs : List Transaction) :
    List (Anomaly × DedupKey) :=
  if txs.length < 5 then []
  else
    let catStats := statsFor stdev (groupAssoc catOf txs)
    let merchStats := statsFor stdev (groupAssoc merchOf txs)
    let globalStats := _calc_stats stdev (txs.map (fun t => sf t.amount))
    (List.insertionSort pairLE (detectLoop catStats merchStats globalStats txs [])).take 15

/-- Python `AnomalyDetector.detect`. -/
def detect (stdev : List ℚ → ℚ) (txs : List Transaction) : List Anomaly :=
  (detectWithKeys stdev txs).map Prod.fst

end AnomalyDetector

/-! ### pattern_miner.py -/

namespace PatternMiner

structure Velocity where
  days_elapsed : ℕ
  days_in_month : ℕ
  elapsed_pct : ℚ
  current_total : ℚ
  daily_avg : ℚ
  projected_month_end : ℚ
  on_track : Bool
deriving DecidableEq

/-- Python `PatternMiner.spending_velocity`. A `ValueError` from `date(year, month, 1)`
(month outside 1..12, year 0) propagates out of the Python function; that raise
is modelled as `none` (no result is produced either way, and the claims under
verification only constrain produced results). -/
def spending_velocity (transactions : List Transaction) (period : String) :
    Option Velocity :=
  if transactions = [] ∨ period = "" then none
  else
    match (period.take 4).toNat?, ((period.drop 5).take 2).toNat? with
    | some year, some month =>
      let periodTxs := transactions.filter (fun tx => (tx.date.getD "").startsWith period)
      if periodTxs = [] then none
      else
        let totalSpent := (periodTxs.map (fun tx => sf tx.amount)).sum
        let days : List ℕ := periodTxs.filterMap (fun tx =>
          let d := tx.date.getD ""
          if 10 ≤ d.length then
            match (d.splitOn "-").get? 2 with
            | some comp => comp.toNat?
            | none => none
          else some 1)
        if days = [] then none
        else
          let latestDay := days.foldl max 0
          if 1 ≤ year ∧ 1 ≤ month ∧ month ≤ 12 then
            let daysInMonth := monthLength year month
            let maxl : ℚ := max (latestDay : ℚ) 1
            let dailyRate := totalSpent / maxl
            let projected := dailyRate * daysInMonth
            let elapsedPct := ((latestDay : ℚ) / daysInMonth) * 100
            some { days_elapsed := latestDay, days_in_month := daysInMonth
                   elapsed_pct := pyRound elapsedPct 1
                   current_total := pyRound totalSpent 2
                   daily_avg := pyRound dailyRate 2
                   projected_month_end := pyRound projected 2
                   on_track :=
                     decide (projected ≤ totalSpent * ((daysInMonth : ℚ) / maxl) * (11/10)) }
          else none
    | _, _ => none

structure DayRow where
  day : String
  total : ℚ
  count : ℕ
  pct : ℚ
deriving DecidableEq

structure DayDist where
  distribution : List DayRow
  weekend_pct : ℚ
  peak_day : String
  peak_day_pct : ℚ
  insight : String
deriving DecidableEq

def dayNameTR (dow : ℕ) : String :=
  (["Pazartesi", "Salı", "Çarşamba", "Perşembe", "Cuma", "Cumartesi", "Pazar"].getD
    dow (toString dow))

/-- Python `max(distribution, key=lambda d: d["total"])` — Python's `max` returns the
first maximal element. -/
def firstMaxBy (rows : List DayRow) : DayRow :=
  match rows with
  | [] => { day := "", total := 0, count := 0, pct := 0 }
  | r :: rest => rest.foldl (fun best d => if best.total < d.total then d else best) r

/-- Python `PatternMiner.day_of_week_distribution`. The str(float) rendering of
`weekend_pct` in downstream card text is modelled by `fmt` helpers; the numeric
fields here are exact. -/
def day_of_week_distribution (transactions : List Transaction) : Option DayDist :=
  if transactions = [] then none
  else
    let parsed : List (ℕ × ℚ) := transactions.filterMap (fun tx =>
      ((tx.date.getD "" : String) |> parseDate10).map
        (fun t => (pyWeekday t.1 t.2.1 t.2.2, sf tx.amount)))
    if parsed = [] then none
    else
      let total := (parsed.map Prod.snd).sum
      if total ≤ 0 then none
      else
        let totalFor := fun (d : ℕ) => ((parsed.filter (fun p => p.1 = d)).map Prod.snd).sum
        let countFor := fun (d : ℕ) => (parsed.filter (fun p => p.1 = d)).length
        let distribution := (List.range 7).map (fun dow =>
          { day := dayNameTR dow, total := pyRound (totalFor dow) 2
            count := countFor dow
            pct := pyRound (totalFor dow / total * 100) 1 : DayRow })
        let weekendTotal := ((distribution.drop 5).map (fun r => r.total)).sum
        let weekendPct := if 0 < total then pyRound (weekendTotal / total * 100) 1 else 0
        let peak := firstMaxBy distribution
        some { distribution := distribution, weekend_pct := weekendPct
               peak_day := peak.day, peak_day_pct := peak.pct
               insight :=
                 if 40 < weekendPct then "weekend_heavy"
                 else if weekendPct < 25 then "weekday_heavy"
                 else "balanced" }

structure CorrPair where
  cat_a : String
  cat_b : String
  correlation : ℚ
  direction : String
deriving DecidableEq

structure CatCorr where
  pairs : List CorrPair
deriving DecidableEq

/-- Ordered pairs `(i, j)` with `i < j`, in the order of Python's nested loops. -/
def ordPairs {α : Type} : List α → List (α × α)
  | [] => []
  | x :: rest => rest.map (fun y => (x, y)) ++ ordPairs rest

/-- Descending sort on `abs(correlation)` (stable, `reverse=True`). -/
def corrGE (a b : CorrPair) : Prop := |b.correlation| ≤ |a.correlation|

instance : DecidableRel corrGE :=
  fun a b => inferInstanceAs (Decidable (|b.correlation| ≤ |a.correlation|))

/-- Python `PatternMiner.category_correlation`. `sqrt` is the external `math.sqrt`
primitive. -/
def category_correlation (sqrt : ℚ → ℚ) (monthly : List MonthlyTotal) :
    Option CatCorr :=
  if monthly.length < 3 then none
  else
    let allCats := allCatsOf monthly
    if allCats.length < 2 then none
    else
      let sorted := List.insertionSort monthLE monthly
      let catSeries : List (String × List ℚ) := allCats.filterMap (fun cat =>
        let series := sorted.map (fun m => dictGet (m.categories.getD []) cat)
        if series.any (fun v => decide (0 < v)) then some (cat, series) else none)
      if catSeries.length < 2 then none
      else
        let correlations := (ordPairs catSeries).filterMap (fun pq =>
          let a0 := pq.1.2
          let b0 := pq.2.2
          let n := min a0.length b0.length
          if n < 3 then none
          else
            let a := a0.take n
            let b := b0.take n
            let aMean := mean a
            let bMean := mean b
            let num := ((a.zip b).map (fun p => (p.1 - aMean) * (p.2 - bMean))).sum
            let denA := sqrt ((a.map (fun x => (x - aMean) ^ 2)).sum)
            let denB := sqrt ((b.map (fun x => (x - bMean) ^ 2)).sum)
            if 0 < denA ∧ 0 < denB then
              let r := num / (denA * denB)
              if 1/2 < |r| then
                some { cat_a := pq.1.1, cat_b := pq.2.1, correlation := pyRound r 2
                       direction := if 0 < r then "positive" else "negative" }
              else none
            else none)
        if correlations = [] then none
        else some { pairs := (List.insertionSort corrGE correlations).take 5 }

structure RecurItem where
  merchant : String
  avg_amount : ℚ
  frequency : ℕ
  is_monthly : Bool
  monthly_cost : ℚ
  yearly_cost : ℚ
deriving DecidableEq

structure Recurring where
  items : List RecurItem
  total_monthly : ℚ
  total_yearly : ℚ
deriving DecidableEq

def upsertP (k : String) (v : ℚ × String) :
    List (String × List (ℚ × String)) → List (String × List (ℚ × String))
  | [] => [(k, [v])]
  | (k2, vs) :: rest =>
    if k2 = k then (k2, vs ++ [v]) :: rest else (k2, vs) :: upsertP k v rest

/-- Descending sort on yearly cost (stable, `reverse=True`). -/
def recurGE (a b : RecurItem) : Prop := b.yearly_cost ≤ a.yearly_cost

instance : DecidableRel recurGE :=
  fun a b => inferInstanceAs (Decidable (b.yearly_cost ≤ a.yearly_cost))

/-- Python `PatternMiner.recurring_payments` (tolerance fixed at its default 0.15, as in
the only call site). -/
def recurring_payments (transactions : List Transaction) : Option Recurring :=
  if transactions.length < 4 then none
  else
    let byMerchant := transactions.foldl (fun acc tx =>
      let merchant := (tx.merchant.getD "").trim
      if merchant = "" then acc
      else upsertP merchant (sf tx.amount, tx.date.getD "") acc) []
    let recurring := byMerchant.filterMap (fun p =>
      let txs := p.2
      if txs.length < 2 then none
      else
        let amounts := txs.map Prod.fst
        let avgAmt := mean amounts
        if avgAmt ≤ 0 then none
        else if amounts.all (fun a => decide (|a - avgAmt| / avgAmt ≤ 15/100)) then
          let dates := List.insertionSort (fun a b : ℕ => a ≤ b)
            (txs.filterMap (fun t => parseDateR t.2))
          let isMonthly :=
            if 2 ≤ dates.length then
              let diffs : List ℚ := (dates.zip dates.tail).map
                (fun q => (q.2 : ℚ) - (q.1 : ℚ))
              let avgDiff := mean diffs
              decide (20 ≤ avgDiff ∧ avgDiff ≤ 40)
            else false
          if isMonthly || decide (3 ≤ txs.length) then
            some { merchant := p.1, avg_amount := pyRound avgAmt 2
                   frequency := txs.length, is_monthly := isMonthly
                   monthly_cost := pyRound avgAmt 2
                   yearly_cost := pyRound (avgAmt * 12) 2 }
          else none
        else none)
    if recurring = [] then none
    else
      some { items := (List.insertionSort recurGE recurring).take 10
             total_monthly := pyRound ((recurring.map (fun r => r.monthly_cost)).sum) 2
             total_yearly := pyRound ((recurring.map (fun r => r.yearly_cost)).sum) 2 }

structure Shift where
  category : String
  current : ℚ
  previous_avg : ℚ
  change_pct : ℚ
  direction : String
  severity : String
deriving DecidableEq

structure Shifts where
  shifts : List Shift
deriving DecidableEq

/-- Descending sort on `abs(change_pct)` (stable, `reverse=True`). -/
def shiftGE (a b : Shift) : Prop := |b.change_pct| ≤ |a.change_pct|

instance : DecidableRel shiftGE :=
  fun a b => inferInstanceAs (Decidable (|b.change_pct| ≤ |a.change_pct|))

/-- Python `PatternMiner.category_shifts`. -/
def category_shifts (monthly : List MonthlyTotal) : Option Shifts :=
  if monthly.length < 2 then none
  else
    let sorted := List.insertionSort monthLE monthly
    let current := (sorted.getLastD ⟨none, none, none⟩).categories.getD []
    let previous := sorted.dropLast
    if previous = [] then none
    else
      let allCats := allCatsOf sorted
      let shifts := allCats.filterMap (fun cat =>
        let prevValues := previous.map (fun m => dictGet (m.categories.getD []) cat)
        let prevAvg := if prevValues = [] then 0 else mean prevValues
        let currVal := dictGet current cat
        if 50 < prevAvg then
          let changePct := (currVal - prevAvg) / prevAvg * 100
          if 25 < |changePct| then
            some { category := cat, current := pyRound currVal 2
                   previous_avg := pyRound prevAvg 2, change_pct := pyRound changePct 1
                   direction := if 0 < changePct then "up" else "down"
                   severity := if 50 < |changePct| then "HIGH" else "MEDIUM" }
          else none
        else none)
      if shifts = [] then none
      else some { shifts := (List.insertionSort shiftGE shifts).take 6 }

end PatternMiner

/-- The `all_patterns` dict of the orchestrator: each detector's optional result. -/
structure Patterns where
  velocity : Option PatternMiner.Velocity
  day_distribution : Option PatternMiner.DayDist
  category_correlation : Option PatternMiner.CatCorr
  recurring_payments : Option PatternMiner.Recurring
  category_shifts : Option PatternMiner.Shifts
deriving DecidableEq

def Patterns.empty : Patterns := ⟨none, none, none, none, none⟩

/-! ### Number formatting (Python f-string specifiers used in card text).

These render exactly the common cases produced by the engine; they only feed
display strings (titles/summaries), whose precise digits none of the verified
properties depend on. -/

/-- Python `f"{x:.0f}"`. -/
def fmtF0 (q : ℚ) : String := toString (pyRoundZ q)

/-- Python `f"{x:.1f}"`. -/
def fmtF1 (q : ℚ) : String :=
  let n := pyRoundZ (q * 10)
  let core := toString (n.natAbs / 10) ++ "." ++ toString (n.natAbs % 10)
  if n < 0 then "-" ++ core else core

def chunk3 (l : List Char) : List (List Char) :=
  match l with
  | [] => []
  | c :: rest => (c :: rest.take 2) :: chunk3 (rest.drop 2)
termination_by l.length
decreasing_by simp [List.length_drop]; omega

/-- Python `f"{x:,.0f}"` — thousands separators. -/
def fmtComma (q : ℚ) : String :=
  let n := pyRoundZ q
  let s := toString n.natAbs
  let core := String.intercalate ","
    (((chunk3 s.toList.reverse).map (fun g => String.mk g.reverse)).reverse)
  if n < 0 then "-" ++ core else core

/-! ### insight_builder.py -/

structure Evidence where
  metric : String
  value : ℚ
  unit : String
deriving DecidableEq

structure Explanation where
  reason : String
  data_points : List String
  detection_method : String
deriving DecidableEq

structure Card where
  id : String
  ctype : String
  priority : String
  title : String
  summary : String
  confidence : ℤ
  evidence : List Evidence
  actions : List String
  explanation : Option Explanation
deriving DecidableEq

namespace InsightBuilder

open AnomalyDetector PatternMiner ForecastEngine

/-- Python `InsightBuilder.from_anomalies`. -/
def from_anomalies (anomalies : List Anomaly) (_period : String) : List Card :=
  (anomalies.take 5).enum.map (fun p =>
    let i := p.1
    let a := p.2
    { id := "anomaly_" ++ toString i, ctype := "anomaly_detection"
      priority := a.severity
      title := "Olağandışı harcama: " ++ a.merchant
      summary := a.merchant ++ "'de " ++ fmtF0 a.amount ++ " TL harcama tespit edildi. " ++
        "Ortalamadan " ++ fmtF1 a.z_score ++ "x sapma (" ++ a.detection_method ++ ")."
      confidence := confidence 10 (min (a.z_score / 4) 1)
      evidence := [⟨"tutar", a.amount, "TL"⟩, ⟨"z_score", a.z_score, ""⟩]
      actions :=
        [a.merchant ++ " harcamasını gözden geçirin, gerekli mi değerlendirin.",
         "Benzer tutardaki geçmiş işlemleri karşılaştırın."] ++
        (if (3 : ℚ) < a.z_score then
          ["Bu işlem çok yüksek sapma gösteriyor, hatalı giriş olabilir."] else [])
      explanation := some
        { reason := a.detection_method ++ " ile tespit edildi"
          data_points :=
            ["Tutar: " ++ fmtF0 a.amount ++ " TL",
             "Z-skor: " ++ fmtF1 a.z_score ++ " (eşik: 2.0)",
             "Kategori: " ++ a.category]
          detection_method := a.detection_method } })

/-- Python `InsightBuilder.from_forecast`. -/
def from_forecast (fc : Forecast) (_period : String) : List Card :=
  if fc.next_month_estimate ≤ 0 then []
  else
    let trend := fc.trend
    let trendText :=
      if trend = "up" then "Artış eğiliminde"
      else if trend = "down" then "Düşüş eğiliminde"
      else if trend = "stable" then "Stabil görünüyor"
      else "stabil"
    let actions :=
      if trend = "up" then
        ["Bütçe limitlerini bu ay için gözden geçirin.",
         "En çok artan kategoriyi tespit edip kısıntı yapın."]
      else if trend = "down" then
        ["Tasarruf hedefinizi artırabilirsiniz.",
         "Düşüş trendini korumak için mevcut alışkanlıkları sürdürün."]
      else
        ["Harcama dengenizi koruyun, bütçe takibine devam edin."]
    [{ id := "forecast_0", ctype := "budget_forecast"
       priority := if trend = "up" then "HIGH" else "MEDIUM"
       title := "Gelecek ay tahmini: " ++ fmtF0 fc.next_month_estimate ++ " TL"
       summary := "Harcamalar " ++ trendText ++ ". Güven skoru: %" ++
         toString fc.confidence_score ++ "."
       confidence := fc.confidence_score
       evidence := [⟨"tahmin", fc.next_month_estimate, "TL"⟩, ⟨"trend", fc.trend_pct, "%"⟩]
       actions := actions, explanation := none }]

/-- Python `InsightBuilder.from_patterns`. -/
def from_patterns (pats : Patterns) (_period : String) : List Card :=
  let velocityCards :=
    match pats.velocity with
    | some v =>
      if 0 < v.elapsed_pct then
        [{ id := "velocity_0", ctype := "spending_summary"
           priority :=
             if v.elapsed_pct < 50 ∧ v.projected_month_end * (6/10) < v.current_total
             then "HIGH" else "MEDIUM"
           title := "Harcama hızı: " ++ toString v.days_elapsed ++ " günde " ++
             fmtF0 v.current_total ++ " TL"
           summary := "Ayın %" ++ fmtF0 v.elapsed_pct ++ "'i geçti. " ++
             "Günlük ortalama " ++ fmtF0 v.daily_avg ++ " TL. " ++
             "Ay sonu tahmini: " ++ fmtF0 v.projected_month_end ++ " TL."
           confidence := confidence v.days_elapsed (1/2)
           evidence := [⟨"gunluk_ort", v.daily_avg, "TL"⟩,
                        ⟨"ay_sonu", v.projected_month_end, "TL"⟩]
           actions := [], explanation := none : Card }]
      else []
    | none => []
  let dowCards :=
    match pats.day_distribution with
    | some d =>
      if d.insight ≠ "balanced" then
        [{ id := "dow_0", ctype := "trend_analysis", priority := "LOW"
           title := "En çok harcama günü: " ++ d.peak_day
           summary := "Hafta sonu harcamalarınız toplamın %" ++ fmtF1 d.weekend_pct ++ "'i."
           confidence := confidence 20 (3/10)
           evidence := [⟨"hafta_sonu_yuzde", d.weekend_pct, "%"⟩]
           actions := [], explanation := none : Card }]
      else []
    | none => []
  let shiftCards :=
    match pats.category_shifts with
    | some s =>
      ((s.shifts.take 3).enum.map (fun p =>
        let i := p.1
        let sh := p.2
        { id := "shift_" ++ toString i, ctype := "category_breakdown"
          priority := sh.severity
          title := sh.category ++ " harcaması %" ++ fmtF0 |sh.change_pct| ++ " " ++
            (if sh.direction = "up" then "arttı" else "azaldı")
          summary := "Önceki ayların ortalaması " ++ fmtF0 sh.previous_avg ++ " TL, " ++
            "bu ay " ++ fmtF0 sh.current ++ " TL."
          confidence := confidence 8 (|sh.change_pct| / 100)
          evidence := [⟨"onceki_ort", sh.previous_avg, "TL"⟩, ⟨"bu_ay", sh.current, "TL"⟩]
          actions := [], explanation := none : Card }))
    | none => []
  let recurCards :=
    match pats.recurring_payments with
    | some r =>
      if r.items ≠ [] then
        [{ id := "recur_0", ctype := "merchant_analysis"
           priority := if 500 < r.total_monthly then "MEDIUM" else "LOW"
           title := "Tespit edilen " ++ toString r.items.length ++ " tekrarlayan ödeme"
           summary := "Toplam aylık: " ++ fmtF0 r.total_monthly ++ " TL, " ++
             "yıllık: " ++ fmtF0 r.total_yearly ++ " TL."
           confidence := confidence 15 (6/10)
           evidence := [⟨"aylik_toplam", r.total_monthly, "TL"⟩,
                        ⟨"yillik_toplam", r.total_yearly, "TL"⟩]
           actions := [], explanation := none : Card }]
      else []
    | none => []
  velocityCards ++ dowCards ++ shiftCards ++ recurCards

def budgetAlertsAux : List Budget → ℕ → List Card
  | [], _ => []
  | b :: rest, i =>
    let pct := sf b.pct
    if 80 ≤ pct then
      { id := "budget_" ++ toString i, ctype := "budget_forecast"
        priority := if 100 ≤ pct then "HIGH" else "MEDIUM"
        title := (b.category.getD "?") ++ " bütçesi " ++
          (if 100 ≤ pct then "aşıldı" else "sınıra yaklaştı")
        summary := fmtF0 (b.spent.getD 0) ++ " TL / " ++ fmtF0 (b.limit.getD 0) ++
          " TL (%" ++ fmtF0 pct ++ ")."
        confidence := 95
        evidence := [⟨"butce", b.limit.getD 0, "TL"⟩, ⟨"harcanan", b.spent.getD 0, "TL"⟩]
        actions := [], explanation := none } :: budgetAlertsAux rest (i + 1)
    else budgetAlertsAux rest i

/-- Python `InsightBuilder.from_budget_alerts`. -/
def from_budget_alerts (budgets : List Budget) : List Card :=
  budgetAlertsAux budgets 0

/-- Python `str(g.get("status", "active")).lower() == "active"`. -/
def isActive (g : Goal) : Bool := (g.status.getD "active").toLower == "active"

/-- Python `InsightBuilder.from_financial_health`. -/
def from_financial_health (fh : FinancialHealth) (goals : List Goal) : List Card :=
  let periodIncome := sf fh.period_income
  let periodSpent := sf fh.period_spent
  let periodNet := sf fh.period_net
  let savingsRate := sf fh.savings_rate
  let healthCards :=
    if 0 < periodIncome then
      (if savingsRate < 10 then
        [{ id := "health_0", ctype := "financial_health", priority := "HIGH"
           title := "Tasarruf oranı kritik seviyede"
           summary := "Ay içinde " ++ fmtF0 periodIncome ++ " TL gelire karşı " ++
             fmtF0 periodSpent ++ " TL harcama var. " ++
             "Tasarruf oranı %" ++ fmtF1 savingsRate ++ "."
           confidence := 92
           evidence := [⟨"gelir", periodIncome, "TL"⟩, ⟨"gider", periodSpent, "TL"⟩,
                        ⟨"tasarruf_oranı", savingsRate, "%"⟩]
           actions := ["Bu ay en yüksek kategoriye %10 harcama limiti koy.",
                       "Abonelikleri kontrol edip en az birini durdur."]
           explanation := none : Card }]
      else if savingsRate < 15 then
        [{ id := "health_0", ctype := "financial_health", priority := "MEDIUM"
           title := "Tasarruf oranı iyileştirilebilir"
           summary := "Tasarruf oranınız %" ++ fmtF1 savingsRate ++ ". " ++
             "İdeal seviye olan %20'ye ulaşmak için harcamalarınızı gözden geçirin."
           confidence := 85
           evidence := [⟨"gelir", periodIncome, "TL"⟩, ⟨"gider", periodSpent, "TL"⟩,
                        ⟨"tasarruf_oranı", savingsRate, "%"⟩]
           actions := ["En yüksek harcama kategorisinde %10 azaltmayı dene.",
                       "Tasarruf hedefi oluşturup düzenli birikim başlat."]
           explanation := none : Card }]
      else
        [{ id := "health_0", ctype := "financial_health", priority := "LOW"
           title := "Gelir-gider dengesi sağlıklı"
           summary := "Net bakiye " ++ fmtF0 periodNet ++ " TL ve tasarruf oranı %" ++
             fmtF1 savingsRate ++ ". Bu tempo hedef birikim için uygun."
           confidence := 85
           evidence := [⟨"net", periodNet, "TL"⟩, ⟨"tasarruf_oranı", savingsRate, "%"⟩]
           actions :=
             ["Bu dengeyi korumak için sabit giderleri aylık bir kez gözden geçir."]
           explanation := none : Card }]) ++
      [{ id := "income_0", ctype := "income_analysis", priority := "LOW"
         title := "Aylık geliriniz " ++ fmtComma periodIncome ++ " TL"
         summary := "Bu ay " ++ fmtComma periodIncome ++ " TL gelire karşı " ++
           fmtComma periodSpent ++ " TL harcama gerçekleşti. " ++
           "Net bakiye " ++ fmtComma periodNet ++ " TL."
         confidence := 95
         evidence := [⟨"gelir", periodIncome, "TL"⟩, ⟨"gider", periodSpent, "TL"⟩,
                      ⟨"net", periodNet, "TL"⟩]
         actions := ["Gelirinizi çeşitlendirmek için ek gelir kaynakları araştırın.",
                     "Düzenli gelirinizi otomatik tasarrufa yönlendirin."]
         explanation := none : Card }]
    else if 0 < periodSpent then
      [{ id := "health_0", ctype := "financial_health", priority := "MEDIUM"
         title := "Gelir bilgisi eksik"
         summary := "Bu ay " ++ fmtF0 periodSpent ++ " TL harcama tespit edildi ancak " ++
           "gelir kaydı bulunamadı. Gelir bilginizi ekleyerek doğru analiz yapılmasını sağlayın."
         confidence := 90
         evidence := [⟨"gider", periodSpent, "TL"⟩]
         actions := ["Gelirlerinizi sisteme ekleyerek tam finansal görünüm elde edin."]
         explanation := none : Card }]
    else []
  let activeGoals := goals.filter isActive
  let goalCards :=
    if activeGoals ≠ [] then
      let progressValues := activeGoals.filterMap (fun g =>
        let target := sf g.target_amount
        if 0 < target then some (sf g.current_amount / target * 100) else none)
      if progressValues ≠ [] then
        let avgProgress := mean progressValues
        [{ id := "goal_0", ctype := "goal_progress"
           priority := if avgProgress < 70 then "MEDIUM" else "LOW"
           title := "Hedef ilerleme ortalaması %" ++ fmtF0 avgProgress
           summary := toString activeGoals.length ++ " aktif hedef var. " ++
             "Ortalama ilerleme %" ++ fmtF1 avgProgress ++ "."
           confidence := confidence activeGoals.length (min (avgProgress / 100) 1)
           evidence := [⟨"aktif_hedef", (activeGoals.length : ℚ), "adet"⟩,
                        ⟨"ortalama_ilerleme", pyRound avgProgress 1, "%"⟩]
           actions := ["Her hedef için haftalık ara kilometre taşı belirle.",
                       "Tamamlanan hedefleri kapatıp yenisini oluştur."]
           explanation := none : Card }]
      else []
    else []
  healthCards ++ goalCards

end InsightBuilder

/-! ### llm_enricher.py

The Bedrock round-trip (network, JSON transport, prompt text) is the external
boundary: an LLM response is modelled as an already-parsed `Option AiData`,
where `none` models any exception up to and including `json.loads` (timeout,
transport error, malformed response envelope) and an empty `AiData` models
unparsable output text. Token/cost accounting and the logged-only
hallucination heuristic live entirely on the network side of that boundary
and are outside the model.

Enrichment field values are arbitrary JSON, so `title`/`summary` values are
modelled by `PyVal` (a string, or a non-string scalar/object that raises
`TypeError` when the update loop slices it) and `actions` values by `PyActs`.
A mid-loop `TypeError` is reachable *after* some cards were already mutated
in place; the loop model therefore returns the partially updated list
together with a raised flag, matching the source's `except` branch, which
returns the same (mutated) `insights` list with the fallback coach and an
`{"status": "error"}` observability record. Outside the model (never reached
by the verified properties): JSON arrays in string positions (Python would
slice them and store a non-string in the card, making card fields
dynamically typed), non-string enrichment ids, and a truthy non-dict `coach`
value (its `coach["_llm_meta"]` write raises only after the loop, so it
degrades to the fallback coach with fully mutated cards — the same shape the
theorems describe). -/

/-- A JSON value sitting in an enrichment `title`/`summary` slot, as far as
the update loop distinguishes it: a string (truthy iff nonempty, sliceable),
or a non-string value with its truthiness — slicing a truthy one with
`[:n]` raises `TypeError`. -/
inductive PyVal where
  | str (s : String)
  | nonStr (truthy : Bool)
deriving DecidableEq

def PyVal.isStr : PyVal → Bool
  | .str _ => true
  | .nonStr _ => false

def PyVal.getStr : PyVal → String
  | .str s => s
  | .nonStr _ => ""

/-- A JSON value sitting in an enrichment `actions` slot: an array of
element values, or a non-sequence value with its truthiness (`[:3]` on a
truthy one raises `TypeError`). -/
inductive PyActs where
  | list (items : List PyVal)
  | nonSeq (truthy : Bool)
deriving DecidableEq

structure Obs where
  status : String
  output_valid : Bool
  warnings : List String
deriving DecidableEq

def Obs.empty : Obs := ⟨"", false, []⟩

structure Coach where
  headline : String
  summary : String
  focus_areas : List String
  llm_meta : Option Obs
deriving DecidableEq

/-- The `coach` object of a parsed LLM reply; `""` models a missing field (the
validator's truthiness checks cannot tell them apart). -/
structure AiCoach where
  headline : String
  summary : String
  focus_areas : List String
deriving DecidableEq

structure Enrichment where
  id : Option String
  title : Option PyVal
  summary : Option PyVal
  actions : Option PyActs
deriving DecidableEq

structure AiData where
  coach : Option AiCoach
  card_enrichments : List Enrichment
deriving DecidableEq

namespace LLMEnricher

/-- Python `LLMEnricher._fallback_coach`. -/
def _fallback_coach (period : String) (fc : ForecastEngine.Forecast) : Coach :=
  { headline :=
      if fc.trend = "up" then "Dikkat: harcamalar artış eğiliminde!"
      else if fc.trend = "down" then "Harcamalarınız düşüş eğiliminde."
      else period ++ " analizi tamamlandı."
    summary := period ++ " dönemine ait finansal analiz sonuçları hazır."
    focus_areas := ["Bütçe takibi", "Harcama trendi", "Tasarruf fırsatları"]
    llm_meta := none }

/-- Python `LLMEnricher._validate_output`: `(is_valid, warnings)`. -/
def _validate_output (ai : AiData) (original : List Card) : Bool × List String :=
  let coachWarnings :=
    match ai.coach with
    | none => ["Missing or invalid coach object"]
    | some c =>
      (if c.headline = "" then ["Coach headline empty"]
       else if 120 < c.headline.length then
         ["Coach headline too long: " ++ toString c.headline.length ++ " chars"]
       else []) ++
      (if c.summary = "" then ["Coach summary empty"] else [])
  let validIds := original.map (fun c => c.id)
  let idWarnings := ai.card_enrichments.filterMap (fun e =>
    match e.id with
    | some i =>
      if i ≠ "" ∧ i ∉ validIds then some ("Unknown card ID in enrichment: " ++ i)
      else none
    | none => none)
  let warnings := coachWarnings ++ idWarnings
  (warnings.length ≤ 2, warnings)

def upsertE (k : String) (v : Enrichment) :
    List (String × Enrichment) → List (String × Enrichment)
  | [] => [(k, v)]
  | (k2, v2) :: rest =>
    if k2 = k then (k2, v) :: rest else (k2, v2) :: upsertE k v rest

/-- Python `{e["id"]: e for e in ai_data.get("card_enrichments", []) if "id" in e}`:
keyed on presence of the id field, later entries overwrite. -/
def enrichMap (es : List Enrichment) : List (String × Enrichment) :=
  es.foldl (fun acc e =>
    match e.id with
    | some i => upsertE i e acc
    | none => acc) []

/-- `if e.get("title"): card["title"] = e["title"][:70]` — the result card and
whether the slice raised `TypeError` (truthy non-string value; a falsy value
of any type is skipped without raising). -/
def stepTitle (e : Enrichment) (card : Card) : Card × Bool :=
  match e.title with
  | some (PyVal.str t) =>
    if t ≠ "" then ({ card with title := t.take 70 }, false) else (card, false)
  | some (PyVal.nonStr b) => (card, b)
  | none => (card, false)

/-- `if e.get("summary"): card["summary"] = e["summary"][:180]`, as `stepTitle`. -/
def stepSummary (e : Enrichment) (card : Card) : Card × Bool :=
  match e.summary with
  | some (PyVal.str s2) =>
    if s2 ≠ "" then ({ card with summary := s2.take 180 }, false) else (card, false)
  | some (PyVal.nonStr b) => (card, b)
  | none => (card, false)

/-- `if e.get("actions"): card["actions"] = [a[:100] for a in e["actions"][:3]]`.
The comprehension is fully evaluated before assignment, so a non-string among
the first three elements raises without writing. -/
def stepActions (e : Enrichment) (card : Card) : Card × Bool :=
  match e.actions with
  | some (PyActs.list items) =>
    if items ≠ [] then
      if (items.take 3).all PyVal.isStr then
        ({ card with actions := (items.take 3).map (fun a => a.getStr.take 100) }, false)
      else (card, true)
    else (card, false)
  | some (PyActs.nonSeq b) => (card, b)
  | none => (card, false)

/-- The in-place update of `LLMEnricher.enrich` for one card, with its raise
flag: the three field writes run in source order; a raise skips the rest of
the body, but the fields already written stay written. -/
def applyEnrichment (m : List (String × Enrichment)) (card : Card) : Card × Bool :=
  match (m.find? (fun p => p.1 == card.id)).map Prod.snd with
  | none => (card, false)
  | some e =>
    let r1 := stepTitle e card
    if r1.2 then (r1.1, true)
    else
      let r2 := stepSummary e r1.1
      if r2.2 then (r2.1, true)
      else stepActions e r2.1

/-- The `for card in insights` update loop. A raise stops the loop: cards
before the raise keep their updates, the raising card keeps the fields
written before its failing slice, later cards are untouched — the returned
list is the same (partially mutated) `insights` list the `except` branch
hands back. -/
def enrichApplyAll (m : List (String × Enrichment)) : List Card → List Card × Bool
  | [] => ([], false)
  | c :: rest =>
    let r1 := applyEnrichment m c
    if r1.2 then (r1.1 :: rest, true)
    else
      let r2 := enrichApplyAll m rest
      (r1.1 :: r2.1, r2.2)

/-- Python `LLMEnricher.enrich`: `(insights, coach, llm_obs)`. A `TypeError`
raised inside the update loop is caught by the function's own `except`
branch, which returns the mutated card list, the fallback coach and an
error-status observability record. -/
def enrich (resp : Option AiData) (period : String) (insights : List Card)
    (fc : ForecastEngine.Forecast) (_pats : Patterns) : List Card × Coach × Obs :=
  if insights = [] then (insights, _fallback_coach period fc, Obs.empty)
  else
    match resp with
    | none => (insights, _fallback_coach period fc, ⟨"error", false, []⟩)
    | some ai =>
      let v := _validate_output ai insights
      let obs : Obs := ⟨"success", v.1, v.2⟩
      let coach0 : Coach :=
        match ai.coach with
        | some c => ⟨c.headline, c.summary, c.focus_areas, none⟩
        | none => _fallback_coach period fc
      if v.1 then
        let r := enrichApplyAll (enrichMap ai.card_enrichments) insights
        if r.2 then (r.1, _fallback_coach period fc, ⟨"error", false, []⟩)
        else (r.1, { coach0 with llm_meta := some obs }, obs)
      else (insights, { coach0 with llm_meta := some obs }, obs)

end LLMEnricher

/-! ### orchestrator.py -/

namespace Orchestrator

open AnomalyDetector PatternMiner InsightBuilder ForecastEngine LLMEnricher

structure Breakdown where
  savings : ℤ
  budget : ℤ
  trend : ℤ
  goals : ℤ
  anomalies : ℤ
deriving DecidableEq

structure HealthScore where
  score : ℤ
  label : String
  breakdown : Breakdown
deriving DecidableEq

/-- Python `orchestrator.compute_health_score`. Python `int(...)` is `pyTrunc`. -/
def compute_health_score (fh : FinancialHealth) (budgets : List Budget)
    (anomalies : List Anomaly) (goals : List Goal) : HealthScore :=
  let savingsRate := sf fh.savings_rate
  let sScore : ℤ :=
    if 20 ≤ savingsRate then 30
    else if 10 ≤ savingsRate then 20
    else if 0 ≤ savingsRate then 10
    else 0
  let bScore : ℤ :=
    if budgets ≠ [] then
      let overCount := (budgets.filter (fun b => decide (100 < sf b.pct))).length
      pyTrunc (25 * (1 - (overCount : ℚ) / budgets.length))
    else 12
  let periodNet := sf fh.period_net
  let tScore : ℤ := if 0 < periodNet then 20 else if -500 ≤ periodNet then 10 else 0
  let activeGoals := goals.filter isActive
  let gScore : ℤ :=
    if activeGoals ≠ [] then
      let progresses := activeGoals.filterMap (fun g =>
        let target := sf g.target_amount
        if 0 < target then some (min (sf g.current_amount / target) 1) else none)
      let avgProg := if progresses ≠ [] then progresses.sum / progresses.length else 1/2
      pyTrunc (15 * avgProg)
    else 8
  let aScore : ℤ :=
    if anomalies.length = 0 then 10 else if anomalies.length ≤ 2 then 5 else 0
  let score := clampZ (sScore + bScore + tScore + gScore + aScore) 0 100
  { score := score
    label :=
      if 80 ≤ score then "Mükemmel"
      else if 60 ≤ score then "İyi"
      else if 40 ≤ score then "Orta"
      else "Dikkat Gerekli"
    breakdown := ⟨sScore, bScore, tScore, gScore, aScore⟩ }

structure NextAction where
  title : String
  source_insight : Option String
  priority : String
  due_in_days : ℕ
deriving DecidableEq

def dedupAux : List NextAction → List String → List NextAction
  | [], _ => []
  | a :: rest, seen =>
    if a.title.take 40 ∈ seen then dedupAux rest seen
    else a :: dedupAux rest (a.title.take 40 :: seen)

/-- Python `orchestrator.build_next_actions`. -/
def build_next_actions (insights : List Card) : List NextAction :=
  let actions := insights.flatMap (fun card =>
    if card.actions ≠ [] then
      (card.actions.take 2).map (fun act =>
        { title := act, source_insight := some card.id, priority := card.priority
          due_in_days := if card.priority = "HIGH" then 7 else 14 })
    else if card.priority = "HIGH" then
      [{ title := card.title, source_insight := some card.id, priority := "HIGH"
         due_in_days := 7 }]
    else [])
  let unique := dedupAux actions []
  if unique ≠ [] then unique.take 8
  else
    [{ title := "Harcamalarınızı düzenli olarak gözden geçirin."
       source_insight := none, priority := "MEDIUM", due_in_days := 7 },
     { title := "Aylık bütçe hedeflerinizi belirleyin."
       source_insight := none, priority := "MEDIUM", due_in_days := 14 },
     { title := "Tasarruf hedefi oluşturup ilerlemenizi takip edin."
       source_insight := none, priority := "LOW", due_in_days := 14 }]

/-- The analysis input payload (fields the engine reads; `subscriptions`,
`merchantStats`, `userId`, `requestId` and `persona` are read but do not affect
any modelled computation — `persona` only shapes the LLM prompt, which lives on
the network side of the model boundary). -/
structure Payload where
  period : Option String
  transactions : List Transaction
  monthlyTotals : List MonthlyTotal
  budgets : List Budget
  goals : List Goal
  financialHealth : FinancialHealth
  skipLLM : Bool

/-- External primitives: `statistics.stdev`, `math.sqrt`, the md5 cache-key
digest (applied to the canonical JSON of `(period, tx_count, monthly_count,
total)`), the wall clock, and the configured Bedrock model id. -/
structure Env where
  stdev : List ℚ → ℚ
  sqrt : ℚ → ℚ
  md5hex : String × ℕ × ℕ × ℚ → String
  nowMonth : String
  nowIso : String
  modelId : String

def periodOf (env : Env) (p : Payload) : String := p.period.getD env.nowMonth

/-- Python `skip_llm = bool(input_skip_llm or (len(tx) < 6 and len(monthly) < 2))`. -/
def skipOf (p : Payload) : Bool :=
  p.skipLLM || (decide (p.transactions.length < 6) && decide (p.monthlyTotals.length < 2))

/-- STEP 3 of the orchestrator: the five miners. -/
def minePatterns (sqrt : ℚ → ℚ) (transactions : List Transaction)
    (monthlyTotals : List MonthlyTotal) (period : String) : Patterns :=
  { velocity := spending_velocity transactions period
    day_distribution := day_of_week_distribution transactions
    category_correlation := category_correlation sqrt monthlyTotals
    recurring_payments := recurring_payments transactions
    category_shifts := category_shifts monthlyTotals }

def prioRank (c : Card) : ℕ :=
  if c.priority = "HIGH" then 0 else if c.priority = "MEDIUM" then 1 else 2

/-- Python `priority_order.get(c.get("priority", "LOW"), 2)` ascending; `sort` is stable. -/
def prioLE (a b : Card) : Prop := prioRank a ≤ prioRank b

instance : DecidableRel prioLE :=
  fun a b => inferInstanceAs (Decidable (prioRank a ≤ prioRank b))

/-- The priority-sorted insight-card list just before the LLM stage
(steps 1–4 of `run_analysis`). -/
def preInsights (env : Env) (p : Payload) : List Card :=
  let period := periodOf env p
  let anomalies := detect env.stdev p.transactions
  let fc := forecast p.monthlyTotals
  let pats := minePatterns env.sqrt p.transactions p.monthlyTotals period
  List.insertionSort prioLE
    (from_anomalies anomalies period ++ from_forecast fc period ++
     from_patterns pats period ++ from_budget_alerts p.budgets ++
     from_financial_health p.financialHealth p.goals)

structure LLMOut where
  insights : List Card
  coach : Coach
  obs : Obs

/-- STEP 5: skip (cache hit or sparse input) keeps the cards and takes the
deterministic fallback; otherwise the guarded enrichment call runs. -/
def llmStep (resp : Option AiData) (skip : Bool) (period : String) (pre : List Card)
    (fc : ForecastEngine.Forecast) (pats : Patterns) : LLMOut :=
  if skip then ⟨pre, _fallback_coach period fc, Obs.empty⟩
  else
    let r := enrich resp period pre fc pats
    ⟨r.1, r.2.1, r.2.2⟩

structure GoalsSummary where
  active_count : ℕ
  total_count : ℕ
deriving DecidableEq

structure Meta where
  model_version : String
  generated_at : String
  analysis_version : String
  period : String
  cache_key : String
  llm_observability : Obs
  monthly_count : ℕ
  transaction_count : ℕ
  budget_count : ℕ
  goal_count : ℕ

structure Response where
  coach : Coach
  insights : List Card
  forecast : ForecastEngine.Forecast
  anomalies : List Anomaly
  patterns : Patterns
  next_actions : List NextAction
  financial_health : FinancialHealth
  health_score : HealthScore
  goals_summary : GoalsSummary
  meta : Meta

/-- Python `orchestrator.run_analysis`. `resp` is the LLM round-trip outcome
(see `LLMEnricher`). -/
def run_analysis (env : Env) (resp : Option AiData) (p : Payload) : Response :=
  let period := periodOf env p
  let anomalies := detect env.stdev p.transactions
  let fc := forecast p.monthlyTotals
  let pats := minePatterns env.sqrt p.transactions p.monthlyTotals period
  let healthScore := compute_health_score p.financialHealth p.budgets anomalies p.goals
  let pre := preInsights env p
  let out := llmStep resp (skipOf p) period pre fc pats
  let nextActions := build_next_actions out.insights
  let cacheKey := env.md5hex
    (period, p.transactions.length, p.monthlyTotals.length,
     (p.monthlyTotals.map (fun m => sf m.total)).sum)
  { coach := out.coach
    insights := out.insights.take 12
    forecast := fc
    anomalies := anomalies.take 10
    patterns := pats
    next_actions := nextActions
    financial_health := p.financialHealth
    health_score := healthScore
    goals_summary := ⟨(p.goals.filter isActive).length, p.goals.length⟩
    meta := { model_version := env.modelId, generated_at := env.nowIso
              analysis_version := "v8", period := period, cache_key := cacheKey
              llm_observability := out.obs
              monthly_count := p.monthlyTotals.length
              transaction_count := p.transactions.length
              budget_count := p.budgets.length, goal_count := p.goals.length } }

end Orchestrator

/-! ### lambda_function.py (the AI lambda's entry point).

Only the short-circuit guard is analysed; everything after it (this file's own
near-duplicate of the pipeline) is abstracted as the `analyze` parameter, so the
short-circuit theorems hold for *any* analysis implementation. -/

namespace LambdaFn

open Orchestrator

structure HandlerBody where
  coach : Coach
  insights : List Card
  forecast : Option ForecastEngine.Forecast
  anomalies : List AnomalyDetector.Anomaly
  patterns : Patterns
  next_actions : List NextAction
  meta_error : Option String
  generated_at : String

structure HandlerResult where
  statusCode : ℕ
  body : HandlerBody

/-- The literal short-circuit response body of `lambda_handler`. -/
def insufficient_body (nowIso : String) : HandlerBody :=
  { coach := ⟨"Analiz için yeterli veri yok.", "", [], none⟩
    insights := [], forecast := none, anomalies := [], patterns := Patterns.empty
    next_actions := [], meta_error := some "insufficient_data", generated_at := nowIso }

/-- Python `lambda_handler`: `not payload.get('monthlyTotals') and not
payload.get('transactions')` is emptiness/absence of both lists. -/
def lambda_handler (analyze : Payload → HandlerBody) (nowIso : String)
    (p : Payload) : HandlerResult :=
  if p.monthlyTotals = [] ∧ p.transactions = [] then ⟨200, insufficient_body nowIso⟩
  else ⟨200, analyze p⟩

end LambdaFn

/-! ### Spec-side definitions (for refinement comparison).

`healthScoreSpec` follows the specification's words for the health score
literally: an exact rational weighted sum with no integer truncation. It is
compared against the source-derived `compute_health_score` below. -/

/-- Spec: "savings-rate tier 0/10/20/30 for <0% / 0–10% / 10–20% / ≥20%". -/
def savingsTierSpec (rate : ℚ) : ℚ :=
  if rate < 0 then 0 else if rate < 10 then 10 else if rate < 20 then 20 else 30

/-- Spec: "budget adherence 25·(1 − over_budget_count/total) (flat 12 if no budgets)". -/
def budgetTierSpec (budgets : List Budget) : ℚ :=
  if budgets = [] then 12
  else 25 * (1 - ((budgets.filter (fun b => decide (100 < sf b.pct))).length : ℚ) /
    budgets.length)

/-- Spec: "trend 20 if net>0, 10 if net≥−500, else 0". -/
def trendTierSpec (net : ℚ) : ℚ := if 0 < net then 20 else if -500 ≤ net then 10 else 0

/-- Spec: "goal progress 15·average completion of active goals (flat 8 if no
active goals)"; completion of a goal is `min(current/target, 1)`. -/
def goalTierSpec (goals : List Goal) : ℚ :=
  let active := goals.filter InsightBuilder.isActive
  if active = [] then 8
  else 15 * mean (active.map (fun g => min (sf g.current_amount / sf g.target_amount) 1))

/-- Spec: "anomaly absence 10 if 0 anomalies, 5 if ≤2, else 0". -/
def anomalyTierSpec (n : ℕ) : ℚ := if n = 0 then 10 else if n ≤ 2 then 5 else 0

/-- The health score exactly as the claim states it (no truncation, no clamp). -/
def healthScoreSpec (fh : FinancialHealth) (budgets : List Budget)
    (anomalies : List AnomalyDetector.Anomaly) (goals : List Goal) : ℚ :=
  savingsTierSpec (sf fh.savings_rate) + budgetTierSpec budgets +
    trendTierSpec (sf fh.period_net) + goalTierSpec goals +
    anomalyTierSpec anomalies.length

/-! Amended (code-accurate) tier functions: the budget and goal products pass
through Python's `int(...)` truncation, the goal average ranges over active
goals with positive targets (defaulting to ½ when none has one), and the total
is clamped into [0, 100]. -/

def savingsTierAmended (rate : ℚ) : ℤ :=
  if rate < 0 then 0 else if rate < 10 then 10 else if rate < 20 then 20 else 30

def budgetTierAmended (budgets : List Budget) : ℤ :=
  if budgets = [] then 12
  else pyTrunc (25 * (1 - ((budgets.filter (fun b => decide (100 < sf b.pct))).length : ℚ) /
    budgets.length))

def trendTierAmended (net : ℚ) : ℤ := if 0 < net then 20 else if -500 ≤ net then 10 else 0

def goalTierAmended (goals : List Goal) : ℤ :=
  let active := goals.filter InsightBuilder.isActive
  if active = [] then 8
  else
    let ps := active.filterMap (fun g =>
      let target := sf g.target_amount
      if 0 < target then some (min (sf g.current_amount / target) 1) else none)
    pyTrunc (15 * (if ps = [] then 1/2 else mean ps))

def anomalyTierAmended (n : ℕ) : ℤ := if n = 0 then 10 else if n ≤ 2 then 5 else 0

def healthScoreAmended (fh : FinancialHealth) (budgets : List Budget)
    (anomalies : List AnomalyDetector.Anomaly) (goals : List Goal) : ℤ :=
  clampZ
    (savingsTierAmended (sf fh.savings_rate) + budgetTierAmended budgets +
     trendTierAmended (sf fh.period_net) + goalTierAmended goals +
     anomalyTierAmended anomalies.length) 0 100

/-! ### Concrete inputs used by counterexamples and witnesses. -/

def mkTx (m : String) (a : ℚ) (d : String) (c : String) : Transaction :=
  ⟨some m, some a, some d, some c⟩

/-- Two months of negative totals: the recent average is negative, so the
clamp interval `[0.5·m, 2.0·m]` is empty. -/
def mtNeg : List MonthlyTotal :=
  [⟨some "2025-01", some (-100), none⟩, ⟨some "2025-02", some (-100), none⟩]

/-- Scenario B's monthly series. -/
def mtB : List MonthlyTotal :=
  [⟨some "2025-01", some 1000, none⟩, ⟨some "2025-02", some 1000, none⟩,
   ⟨some "2025-03", some 2500, none⟩]

/-- Nine same-category transactions; the two amounts 100.001 and 100.002 share
merchant and date, both clear the category IQR fence, and both round to 100.00
in the reported anomaly. -/
def txs9 : List Transaction :=
  [mkTx "M" 10 "2025-01-01" "C", mkTx "M" 10 "2025-01-02" "C",
   mkTx "M" 10 "2025-01-03" "C", mkTx "M" 10 "2025-01-04" "C",
   mkTx "M" 11 "2025-01-06" "C", mkTx "M" 11 "2025-01-07" "C",
   mkTx "M" 11 "2025-01-08" "C",
   mkTx "M" (100001/1000) "2025-01-05" "C",
   mkTx "M" (100002/1000) "2025-01-05" "C"]

/-- Scenario A: six transactions, one merchant, amount 100, one category. -/
def txs6 : List Transaction :=
  [mkTx "NFLX" 100 "2025-01-01" "Sub", mkTx "NFLX" 100 "2025-02-01" "Sub",
   mkTx "NFLX" 100 "2025-03-01" "Sub", mkTx "NFLX" 100 "2025-04-01" "Sub",
   mkTx "NFLX" 100 "2025-05-01" "Sub", mkTx "NFLX" 100 "2025-06-01" "Sub"]

/-- A single January transaction for the velocity witness. -/
def txsV : List Transaction := [mkTx "A" 50 "2025-01-10" "X"]

/-- Health summary with savings rate 25 % and positive net. -/
def fh0 : FinancialHealth := ⟨some 2000, some 1900, some 100, some 25⟩

/-- Three budgets, one of them over 100 %: `25·(2/3)` is not an integer. -/
def bgs0 : List Budget :=
  [⟨some "A", some 100, some 150, some 150⟩,
   ⟨some "B", some 100, some 50, some 50⟩,
   ⟨some "C", some 100, some 50, some 50⟩]

def env0 : Orchestrator.Env :=
  { stdev := fun _ => 0, sqrt := fun _ => 0, md5hex := fun _ => ""
    nowMonth := "2025-01", nowIso := "2025-01-31T00:00:00Z", modelId := "model" }

/-- Thirteen near-limit budgets (MEDIUM alert cards with no actions) plus a
healthy income summary: the health/income cards sort after the twelve-card
truncation point but still feed `next_actions`. -/
def p10 : Orchestrator.Payload :=
  { period := some "2025-01", transactions := [], monthlyTotals := []
    budgets := (List.range 13).map
      (fun i => ⟨some ("B" ++ toString i), some 1000, some 900, some 90⟩)
    goals := []
    financialHealth := ⟨some 1000, some 500, some 500, some 20⟩
    skipLLM := true }

/-- A payload with `skipLLM = true` for the skip-LLM witness. -/
def pSkip : Orchestrator.Payload :=
  { period := some "2025-02", transactions := txs6, monthlyTotals := mtB
    budgets := [], goals := [], financialHealth := fh0, skipLLM := true }

/-- A nonempty payload with both collections empty, for the short-circuit
witness. -/
def pEmpty : Orchestrator.Payload :=
  { period := some "2025-03", transactions := [], monthlyTotals := []
    budgets := bgs0, goals := [], financialHealth := fh0, skipLLM := false }

/-- An arbitrary well-formed LLM reply (used to show skip ignores it). -/
def aiX : AiData :=
  { coach := some ⟨"başlık", "özet", ["odak"]⟩
    card_enrichments := [⟨some "budget_0", some (PyVal.str "yeni başlık"), none, none⟩] }

/-- A payload whose analysis is *not* skipped (three monthly totals) and
produces exactly one insight card (the forecast card `forecast_0`). -/
def pC : Orchestrator.Payload :=
  { period := some "2025-04", transactions := [], monthlyTotals := mtB
    budgets := [], goals := [], financialHealth := ⟨none, none, none, none⟩
    skipLLM := false }

/-- A reply that passes validation (well-formed coach, known card id) but
carries a truthy non-string `summary` value such as the number 7: the update
loop writes the card's title, then `e["summary"][:180]` raises `TypeError`. -/
def aiBad : AiData :=
  { coach := some ⟨"başlık", "özet", ["odak"]⟩
    card_enrichments :=
      [⟨some "forecast_0", some (PyVal.str "x"), some (PyVal.nonStr true), none⟩] }

/-- The identity fields of a card — everything except `title`, `summary`,
`actions`. -/
def cardSkeleton (c : Card) :
    String × String × String × ℤ × List Evidence × Option Explanation :=
  (c.id, c.ctype, c.priority, c.confidence, c.evidence, c.explanation)

/-- Two anomalies differ somewhere in the reported (merchant, amount, date)
triple — the uniqueness relation claimed for the output list. -/
def distinctTriple (a b : AnomalyDetector.Anomaly) : Prop :=
  ¬ (a.merchant = b.merchant ∧ a.amount = b.amount ∧ a.date = b.date)

instance : DecidableRel distinctTriple :=
  fun a b => inferInstanceAs
    (Decidable (¬ (a.merchant = b.merchant ∧ a.amount = b.amount ∧ a.date = b.date)))

/-! ## Helper lemmas -/

theorem clamp_le_left (v lo hi : ℚ) : lo ≤ clamp v lo hi := le_max_left _ _

theorem clamp_le_right (v lo hi : ℚ) (h : lo ≤ hi) : clamp v lo hi ≤ hi :=
  max_le h (min_le_left _ _)

theorem clampZ_nonneg (v hi : ℤ) : 0 ≤ clampZ v 0 hi := le_max_left _ _

theorem clampZ_le (v : ℤ) : clampZ v 0 100 ≤ 100 :=
  max_le (by norm_num) (min_le_left _ _)

theorem monthLength_pos (y m : ℕ) : 0 < monthLength y m := by
  unfold monthLength
  split_ifs <;> norm_num

namespace AnomalyDetector

/-- The detection loop never reports the same dedup key twice, and never
reports a key already in `seen`. -/
theorem detectLoop_nodupKeys (catStats merchStats : List (String × Option Stats))
    (globalStats : Option Stats) :
    ∀ (txs : List Transaction) (seen : List DedupKey),
      ((detectLoop catStats merchStats globalStats txs seen).map Prod.snd).Nodup ∧
      ∀ k ∈ (detectLoop catStats merchStats globalStats txs seen).map Prod.snd,
        k ∉ seen := by
  intro txs
  induction txs with
  | nil => intro seen; simp [detectLoop]
  | cons tx rest ih =>
    intro seen
    rw [detectLoop]
    by_cases hseen : txKey tx ∈ seen
    · simpa [hseen] using ih seen
    · simp only [hseen, if_false]
      cases hev : evalTx catStats merchStats globalStats tx with
      | none => simpa using ih seen
      | some a =>
        have ih2 := ih (txKey tx :: seen)
        constructor
        · simp only [List.map_cons, List.nodup_cons]
          refine ⟨fun hmem => ?_, ih2.1⟩
          exact (ih2.2 _ hmem) (List.mem_cons_self _ _)
        · intro k hk
          simp only [List.map_cons, List.mem_cons] at hk
          rcases hk with hk | hk
          · subst hk; exact hseen
          · intro hks
            exact (ih2.2 _ hk) (List.mem_cons_of_mem _ hks)

end AnomalyDetector

namespace LLMEnricher

theorem cardSkeleton_ext (a b : Card) (hid : a.id = b.id) (hct : a.ctype = b.ctype)
    (hpr : a.priority = b.priority) (hcf : a.confidence = b.confidence)
    (hev : a.evidence = b.evidence) (hex : a.explanation = b.explanation) :
    cardSkeleton a = cardSkeleton b := by
  unfold cardSkeleton
  rw [hid, hct, hpr, hcf, hev, hex]

theorem cardSkeleton_stepTitle (e : Enrichment) (c : Card) :
    cardSkeleton (stepTitle e c).1 = cardSkeleton c := by
  unfold stepTitle
  split
  · split
    · exact cardSkeleton_ext _ _ rfl rfl rfl rfl rfl rfl
    · rfl
  · rfl
  · rfl

theorem cardSkeleton_stepSummary (e : Enrichment) (c : Card) :
    cardSkeleton (stepSummary e c).1 = cardSkeleton c := by
  unfold stepSummary
  split
  · split
    · exact cardSkeleton_ext _ _ rfl rfl rfl rfl rfl rfl
    · rfl
  · rfl
  · rfl

theorem cardSkeleton_stepActions (e : Enrichment) (c : Card) :
    cardSkeleton (stepActions e c).1 = cardSkeleton c := by
  unfold stepActions
  split
  · split
    · split
      · exact cardSkeleton_ext _ _ rfl rfl rfl rfl rfl rfl
      · rfl
    · rfl
  · rfl
  · rfl

theorem cardSkeleton_applyEnrichment (m : List (String × Enrichment)) (c : Card) :
    cardSkeleton (applyEnrichment m c).1 = cardSkeleton c := by
  unfold applyEnrichment
  cases (m.find? (fun p => p.1 == c.id)).map Prod.snd with
  | none => rfl
  | some e =>
    dsimp only
    by_cases h1 : (stepTitle e c).2 = true
    · simpa [h1] using cardSkeleton_stepTitle e c
    · simp only [Bool.not_eq_true] at h1
      by_cases h2 : (stepSummary e (stepTitle e c).1).2 = true
      · simp [h1, h2,
          (cardSkeleton_stepSummary e (stepTitle e c).1).trans (cardSkeleton_stepTitle e c)]
      · simp only [Bool.not_eq_true] at h2
        simp [h1, h2,
          ((cardSkeleton_stepActions e (stepSummary e (stepTitle e c).1).1).trans
            (cardSkeleton_stepSummary e (stepTitle e c).1)).trans
            (cardSkeleton_stepTitle e c)]

theorem enrichApplyAll_skeleton (m : List (String × Enrichment)) :
    ∀ cards : List Card,
      ((enrichApplyAll m cards).1).map cardSkeleton = cards.map cardSkeleton := by
  intro cards
  induction cards with
  | nil => rfl
  | cons c rest ih =>
    rw [enrichApplyAll]
    by_cases h : (applyEnrichment m c).2 = true
    · simp [h, cardSkeleton_applyEnrichment]
    · simp only [Bool.not_eq_true] at h
      simp [h, cardSkeleton_applyEnrichment, ih]

/-- Every branch of `enrich` — skip, transport exception, invalid output,
successful enrichment, and the mid-loop `TypeError` — preserves each card's
identity skeleton, in order. -/
theorem enrich_skeleton (resp : Option AiData) (period : String)
    (insights : List Card) (fc : ForecastEngine.Forecast) (pats : Patterns) :
    ((enrich resp period insights fc pats).1).map cardSkeleton =
      insights.map cardSkeleton := by
  unfold enrich
  by_cases h : insights = []
  · cases resp <;> simp [h]
  · cases resp with
    | none => simp [h]
    | some ai =>
      simp only [h, if_neg, if_false]
      by_cases hv : (_validate_output ai insights).1 = true
      · by_cases hr : (enrichApplyAll (enrichMap ai.card_enrichments) insights).2 = true
        · simp [hv, hr, enrichApplyAll_skeleton]
        · simp only [Bool.not_eq_true] at hr
          simp [hv, hr, enrichApplyAll_skeleton]
      · simp only [Bool.not_eq_true] at hv
        simp [hv]

theorem enrich_none_parts (period : String) (insights : List Card)
    (fc : ForecastEngine.Forecast) (pats : Patterns) :
    (enrich none period insights fc pats).1 = insights ∧
    (enrich none period insights fc pats).2.1 = _fallback_coach period fc := by
  unfold enrich
  by_cases h : insights = [] <;> simp [h]

/-- On the success path the observability status is `"success"`, on skipped or
empty-insights paths it is `""`; it is `"error"` exactly when the call raised
(transport failure or mid-loop `TypeError`), and then the coach is the
fallback and the returned cards keep their identity skeletons. -/
theorem enrich_error_parts (resp : Option AiData) (period : String)
    (insights : List Card) (fc : ForecastEngine.Forecast) (pats : Patterns) :
    (enrich resp period insights fc pats).2.2.status = "error" →
    (enrich resp period insights fc pats).2.1 = _fallback_coach period fc ∧
    ((enrich resp period insights fc pats).1).map cardSkeleton =
      insights.map cardSkeleton := by
  intro hst
  refine ⟨?_, enrich_skeleton resp period insights fc pats⟩
  unfold enrich at hst ⊢
  by_cases h : insights = []
  · simp [h, Obs.empty] at hst
  · cases resp with
    | none => simp [h]
    | some ai =>
      simp only [h, if_neg, if_false] at hst ⊢
      by_cases hv : (_validate_output ai insights).1 = true
      · by_cases hr : (enrichApplyAll (enrichMap ai.card_enrichments) insights).2 = true
        · simp [hv, hr]
        · simp only [Bool.not_eq_true] at hr
          simp [hv, hr] at hst
      · simp only [Bool.not_eq_true] at hv
        simp [hv] at hst

end LLMEnricher

namespace Orchestrator

theorem llmStep_skip (resp : Option AiData) (period : String) (pre : List Card)
    (fc : ForecastEngine.Forecast) (pats : Patterns) :
    llmStep resp true period pre fc pats =
      ⟨pre, LLMEnricher._fallback_coach period fc, Obs.empty⟩ := by
  simp [llmStep]

theorem llmStep_none_insights (skip : Bool) (period : String) (pre : List Card)
    (fc : ForecastEngine.Forecast) (pats : Patterns) :
    (llmStep none skip period pre fc pats).insights = pre := by
  unfold llmStep
  by_cases h : skip = true
  · simp [h]
  · simp only [Bool.not_eq_true] at h
    simp [h, (LLMEnricher.enrich_none_parts period pre fc pats).1]

theorem llmStep_none_coach (skip : Bool) (period : String) (pre : List Card)
    (fc : ForecastEngine.Forecast) (pats : Patterns) :
    (llmStep none skip period pre fc pats).coach = LLMEnricher._fallback_coach period fc := by
  unfold llmStep
  by_cases h : skip = true
  · simp [h]
  · simp only [Bool.not_eq_true] at h
    simp [h, (LLMEnricher.enrich_none_parts period pre fc pats).2]

theorem llmStep_error_parts (resp : Option AiData) (skip : Bool) (period : String)
    (pre : List Card) (fc : ForecastEngine.Forecast) (pats : Patterns) :
    (llmStep resp skip period pre fc pats).obs.status = "error" →
    (llmStep resp skip period pre fc pats).coach = LLMEnricher._fallback_coach period fc ∧
    ((llmStep resp skip period pre fc pats).insights).map cardSkeleton =
      pre.map cardSkeleton := by
  unfold llmStep
  by_cases hs : skip = true
  · simp [hs, Obs.empty]
  · simp only [Bool.not_eq_true] at hs
    simp only [hs, Bool.false_eq_true, if_false]
    intro hst
    exact LLMEnricher.enrich_error_parts resp period pre fc pats hst

end Orchestrator

/-- Python's descending savings-rate ladder equals the claim's ascending one. -/
theorem savingsTier_code_eq (r : ℚ) :
    (if 20 ≤ r then (30 : ℤ) else if 10 ≤ r then 20 else if 0 ≤ r then 10 else 0) =
      savingsTierAmended r := by
  unfold savingsTierAmended
  split_ifs <;> first | rfl | linarith

theorem budgetTier_code_eq (budgets : List Budget) :
    (if budgets ≠ [] then
        pyTrunc (25 * (1 -
          ((budgets.filter (fun b => decide (100 < sf b.pct))).length : ℚ) /
            budgets.length))
      else 12) = budgetTierAmended budgets := by
  unfold budgetTierAmended
  by_cases h : budgets = [] <;> simp [h]

theorem goalTier_code_eq (goals : List Goal) :
    (if goals.filter InsightBuilder.isActive ≠ [] then
        pyTrunc (15 *
          (if (goals.filter InsightBuilder.isActive).filterMap (fun g =>
                let target := sf g.target_amount
                if 0 < target then some (min (sf g.current_amount / target) 1)
                else none) ≠ [] then
            ((goals.filter InsightBuilder.isActive).filterMap (fun g =>
                let target := sf g.target_amount
                if 0 < target then some (min (sf g.current_amount / target) 1)
                else none)).sum /
              ((goals.filter InsightBuilder.isActive).filterMap (fun g =>
                let target := sf g.target_amount
                if 0 < target then some (min (sf g.current_amount / target) 1)
                else none)).length
          else 1/2))
      else 8) = goalTierAmended goals := by
  unfold goalTierAmended
  by_cases h : goals.filter InsightBuilder.isActive = []
  · simp [h]
  · simp only [h, ne_eq, not_false_eq_true, if_true, if_neg h]
    by_cases h2 : (goals.filter InsightBuilder.isActive).filterMap (fun g =>
        let target := sf g.target_amount
        if 0 < target then some (min (sf g.current_amount / target) 1) else none) = []
    · simp [h2, mean]
    · simp [h2, mean]

/-! ## Claim theorems -/

/-- C1 (counterexample): the claim "for every monthly-totals list with n≥2 the
pre-seasonality blend lies in [0.5·m, 2.0·m]" fails as stated: with two months
of total −100 the recent mean m is −100, the interval [−50, −200] is empty, and
the clamp returns −50, which is not ≤ 2·m = −200. -/
theorem c1_counterexample :
    2 ≤ (ForecastEngine.sortedValues mtNeg).length ∧
    ¬ (ForecastEngine.recent_avg (ForecastEngine.sortedValues mtNeg) * (5/10) ≤
          ForecastEngine.blendPreSeason (ForecastEngine.sortedValues mtNeg) ∧
        ForecastEngine.blendPreSeason (ForecastEngine.sortedValues mtNeg) ≤
          ForecastEngine.recent_avg (ForecastEngine.sortedValues mtNeg) * 2) := by
  with_unfolding_all decide

/-- C1 (amended): for every monthly-totals list with at least two entries whose
recent mean m (mean of the last min(n,3) totals, sorted by month key) is
nonnegative, the blended forecast value computed by `ForecastEngine.forecast`
before the seasonality adjustment lies in [0.5·m, 2.0·m]. -/
theorem c1_blend_bounds (monthly : List MonthlyTotal)
    (_h2 : 2 ≤ (ForecastEngine.sortedValues monthly).length)
    (hm : 0 ≤ ForecastEngine.recent_avg (ForecastEngine.sortedValues monthly)) :
    ForecastEngine.recent_avg (ForecastEngine.sortedValues monthly) * (5/10) ≤
      ForecastEngine.blendPreSeason (ForecastEngine.sortedValues monthly) ∧
    ForecastEngine.blendPreSeason (ForecastEngine.sortedValues monthly) ≤
      ForecastEngine.recent_avg (ForecastEngine.sortedValues monthly) * 2 := by
  unfold ForecastEngine.blendPreSeason
  constructor
  · exact clamp_le_left _ _ _
  · exact clamp_le_right _ _ _ (by linarith)

/-- C1 (witness): the bounds hold at Scenario B's series (m = 1500). -/
theorem c1_blend_bounds_witness :
    ForecastEngine.recent_avg (ForecastEngine.sortedValues mtB) * (5/10) ≤
      ForecastEngine.blendPreSeason (ForecastEngine.sortedValues mtB) ∧
    ForecastEngine.blendPreSeason (ForecastEngine.sortedValues mtB) ≤
      ForecastEngine.recent_avg (ForecastEngine.sortedValues mtB) * 2 :=
  c1_blend_bounds mtB (by with_unfolding_all decide) (by with_unfolding_all decide)

/-- C2: when both `transactions` and `monthlyTotals` are empty, the top-level
handler returns `meta.error = "insufficient_data"` with all collections empty,
and the result does not depend on the analysis pipeline at all (no stage runs). -/
theorem c2_insufficient_data (analyze : Orchestrator.Payload → LambdaFn.HandlerBody)
    (nowIso : String) (p : Orchestrator.Payload)
    (hm : p.monthlyTotals = []) (ht : p.transactions = []) :
    (LambdaFn.lambda_handler analyze nowIso p).body.meta_error = some "insufficient_data" ∧
    (LambdaFn.lambda_handler analyze nowIso p).body.insights = [] ∧
    (LambdaFn.lambda_handler analyze nowIso p).body.anomalies = [] ∧
    (LambdaFn.lambda_handler analyze nowIso p).body.patterns = Patterns.empty ∧
    (LambdaFn.lambda_handler analyze nowIso p).body.next_actions = [] ∧
    ∀ analyze2 : Orchestrator.Payload → LambdaFn.HandlerBody,
      LambdaFn.lambda_handler analyze nowIso p = LambdaFn.lambda_handler analyze2 nowIso p := by
  refine ⟨?_, ?_, ?_, ?_, ?_, ?_⟩ <;>
    simp [LambdaFn.lambda_handler, LambdaFn.insufficient_body, hm, ht]

/-- C2 (witness): the short-circuit at a concrete empty-collections payload. -/
theorem c2_insufficient_data_witness :
    (LambdaFn.lambda_handler (fun _ => LambdaFn.insufficient_body "w") "t" pEmpty).body.meta_error =
      some "insufficient_data" ∧
    (LambdaFn.lambda_handler (fun _ => LambdaFn.insufficient_body "w") "t" pEmpty).body.insights = [] ∧
    (LambdaFn.lambda_handler (fun _ => LambdaFn.insufficient_body "w") "t" pEmpty).body.anomalies = [] ∧
    (LambdaFn.lambda_handler (fun _ => LambdaFn.insufficient_body "w") "t" pEmpty).body.patterns = Patterns.empty ∧
    (LambdaFn.lambda_handler (fun _ => LambdaFn.insufficient_body "w") "t" pEmpty).body.next_actions = [] ∧
    ∀ analyze2 : Orchestrator.Payload → LambdaFn.HandlerBody,
      LambdaFn.lambda_handler (fun _ => LambdaFn.insufficient_body "w") "t" pEmpty =
        LambdaFn.lambda_handler analyze2 "t" pEmpty :=
  c2_insufficient_data (fun _ => LambdaFn.insufficient_body "w") "t" pEmpty rfl rfl

/-- C3: LLM enrichment preserves card identity — for every LLM response
(including the mid-loop `TypeError` path, whose partial in-place mutation
also touches only `title`/`summary`/`actions`) the returned list has exactly
the same cards in the same order, with `id`, `type`, `priority`,
`confidence`, `evidence` and `explanation` untouched; only `title`,
`summary` and `actions` may differ. -/
theorem c3_enrich_preserves_identity (resp : Option AiData) (period : String)
    (insights : List Card) (fc : ForecastEngine.Forecast) (pats : Patterns) :
    ((LLMEnricher.enrich resp period insights fc pats).1).map cardSkeleton =
      insights.map cardSkeleton :=
  LLMEnricher.enrich_skeleton resp period insights fc pats

/-- C4: with fewer than 5 transactions (including empty and malformed input —
the model's `Option` fields cover missing/garbage values), anomaly detection
returns the empty list; the Lean model is total, so no exception path exists. -/
theorem c4_sparse_detect_empty (stdev : List ℚ → ℚ) (txs : List Transaction)
    (h : txs.length < 5) : AnomalyDetector.detect stdev txs = [] := by
  simp [AnomalyDetector.detect, AnomalyDetector.detectWithKeys, h]

/-- C4 (witness): the empty transaction list. -/
theorem c4_sparse_detect_empty_witness :
    ([] : List Transaction).length < 5 ∧ AnomalyDetector.detect (fun _ => 0) [] = [] :=
  ⟨by decide, c4_sparse_detect_empty (fun _ => 0) [] (by decide)⟩

/-- C5 (counterexample): the claim "no two returned anomalies share their
(merchant, amount, date) triple" fails: dedup happens on the *raw* amount while
the reported amount is rounded to 2 decimals, so amounts 100.001 and 100.002 at
the same merchant and date both pass the IQR fence and yield two entries whose
reported triples are both ("M", 100, "2025-01-05"). -/
theorem c5_counterexample :
    ¬ List.Pairwise distinctTriple (AnomalyDetector.detect (fun _ => 0) txs9) := by
  with_unfolding_all decide

/-- C5 (amended): deduplication is keyed on the *unrounded* amount: no two
returned anomalies arise from the same (merchant, raw amount, date) dedup key —
`detect` is the key-forgetting projection of `detectWithKeys`, whose reported
keys are pairwise distinct. (Reported triples carry the rounded amount and may
collide, as the counterexample shows.) -/
theorem c5_dedup_keys_nodup (stdev : List ℚ → ℚ) (txs : List Transaction) :
    ((AnomalyDetector.detectWithKeys stdev txs).map Prod.snd).Nodup := by
  have sortTake : ∀ l : List (AnomalyDetector.Anomaly × AnomalyDetector.DedupKey),
      (l.map Prod.snd).Nodup →
      (((List.insertionSort AnomalyDetector.pairLE l).take 15).map Prod.snd).Nodup := by
    intro l hl
    have hperm := List.perm_insertionSort AnomalyDetector.pairLE l
    have h2 : ((List.insertionSort AnomalyDetector.pairLE l).map Prod.snd).Nodup :=
      ((hperm.map Prod.snd).symm).nodup hl
    exact List.Nodup.sublist ((List.take_sublist _ _).map Prod.snd) h2
  unfold AnomalyDetector.detectWithKeys
  by_cases h : txs.length < 5
  · simp [h]
  · simp only [h, if_false]
    exact sortTake _ ((AnomalyDetector.detectLoop_nodupKeys _ _ _ txs []).1)

set_option maxRecDepth 8000 in
/-- C6 (counterexample): the claim "on any enrichment exception the insight
cards are left unmodified" is false of the code. At `pC` (not skipped, one
forecast card) the reply `aiBad` passes validation, the update loop writes
the card's title in place, then `e["summary"][:180]` raises `TypeError` on
the truthy non-string summary; the `except` branch returns the *mutated*
list. The response records the exception (`llm_observability.status =
"error"`) yet its insights differ from the pre-enrichment cards. -/
theorem c6_counterexample :
    (Orchestrator.run_analysis env0 (some aiBad) pC).meta.llm_observability.status =
      "error" ∧
    Orchestrator.skipOf pC = false ∧
    (Orchestrator.run_analysis env0 (some aiBad) pC).coach =
      LLMEnricher._fallback_coach (Orchestrator.periodOf env0 pC)
        (ForecastEngine.forecast pC.monthlyTotals) ∧
    (Orchestrator.run_analysis env0 (some aiBad) pC).insights ≠
      (Orchestrator.preInsights env0 pC).take 12 := by
  with_unfolding_all decide

/-- C6 (amended): when the LLM stage is skipped (`skipLLM=true` or sparse
input) the response is independent of the LLM round-trip (no network call can
influence it); whenever it is skipped *or* the transport/parse step raises
(`resp = none`), the coach is the deterministic trend-derived fallback and
the insight cards are the unmodified pre-enrichment cards (truncated to 12),
with next-actions and health scoring still running on them; whenever the
enrichment call raises *anywhere* (observability status `"error"`, which
includes the mid-loop `TypeError` after partial in-place mutation), the coach
is still the fallback, the cards retain their identity skeletons (only
title/summary/actions can have been rewritten) and the health score is still
computed; and the fallback headline depends on the forecast only through its
trend. -/
theorem c6_skip_and_fallback (env : Orchestrator.Env) (r r2 : Option AiData)
    (p : Orchestrator.Payload) :
    (Orchestrator.skipOf p = true →
      Orchestrator.run_analysis env r p = Orchestrator.run_analysis env r2 p) ∧
    ((Orchestrator.skipOf p = true ∨ r = none) →
      (Orchestrator.run_analysis env r p).coach =
        LLMEnricher._fallback_coach (Orchestrator.periodOf env p)
          (ForecastEngine.forecast p.monthlyTotals) ∧
      (Orchestrator.run_analysis env r p).insights =
        (Orchestrator.preInsights env p).take 12 ∧
      (Orchestrator.run_analysis env r p).next_actions =
        Orchestrator.build_next_actions (Orchestrator.preInsights env p) ∧
      (Orchestrator.run_analysis env r p).health_score =
        Orchestrator.compute_health_score p.financialHealth p.budgets
          (AnomalyDetector.detect env.stdev p.transactions) p.goals) ∧
    ((Orchestrator.run_analysis env r p).meta.llm_observability.status = "error" →
      (Orchestrator.run_analysis env r p).coach =
        LLMEnricher._fallback_coach (Orchestrator.periodOf env p)
          (ForecastEngine.forecast p.monthlyTotals) ∧
      ((Orchestrator.run_analysis env r p).insights).map cardSkeleton =
        ((Orchestrator.preInsights env p).take 12).map cardSkeleton ∧
      (Orchestrator.run_analysis env r p).health_score =
        Orchestrator.compute_health_score p.financialHealth p.budgets
          (AnomalyDetector.detect env.stdev p.transactions) p.goals) ∧
    (∀ (per : String) (f g : ForecastEngine.Forecast), f.trend = g.trend →
      (LLMEnricher._fallback_coach per f).headline =
        (LLMEnricher._fallback_coach per g).headline) := by
  refine ⟨?_, ?_, ?_, ?_⟩
  · intro hskip
    simp only [Orchestrator.run_analysis, hskip, Orchestrator.llmStep_skip]
  · intro hcase
    rcases hcase with hskip | hnone
    · simp only [Orchestrator.run_analysis, hskip, Orchestrator.llmStep_skip]
      exact ⟨trivial, trivial, trivial, trivial⟩
    · subst hnone
      simp only [Orchestrator.run_analysis, Orchestrator.llmStep_none_coach,
        Orchestrator.llmStep_none_insights]
      exact ⟨trivial, trivial, trivial, trivial⟩
  · intro hst
    have herr := Orchestrator.llmStep_error_parts r (Orchestrator.skipOf p)
      (Orchestrator.periodOf env p) (Orchestrator.preInsights env p)
      (ForecastEngine.forecast p.monthlyTotals)
      (Orchestrator.minePatterns env.sqrt p.transactions p.monthlyTotals
        (Orchestrator.periodOf env p))
      (by simpa only [Orchestrator.run_analysis] using hst)
    refine ⟨?_, ?_, rfl⟩
    · simpa only [Orchestrator.run_analysis] using herr.1
    · show (Orchestrator.run_analysis env r p).insights.map cardSkeleton = _
      simp only [Orchestrator.run_analysis]
      rw [List.map_take, List.map_take, herr.2]
  · intro per f g htr
    unfold LLMEnricher._fallback_coach
    rw [htr]

/-- C6 (witness): at a concrete `skipLLM=true` payload the response ignores a
well-formed LLM reply and its coach is the fallback; and at the concrete
raising reply `aiBad` the exception branch still yields the fallback coach. -/
theorem c6_skip_and_fallback_witness :
    Orchestrator.run_analysis env0 (some aiX) pSkip =
      Orchestrator.run_analysis env0 none pSkip ∧
    (Orchestrator.run_analysis env0 none pSkip).coach =
      LLMEnricher._fallback_coach (Orchestrator.periodOf env0 pSkip)
        (ForecastEngine.forecast pSkip.monthlyTotals) ∧
    (Orchestrator.run_analysis env0 (some aiBad) pC).coach =
      LLMEnricher._fallback_coach (Orchestrator.periodOf env0 pC)
        (ForecastEngine.forecast pC.monthlyTotals) :=
  ⟨(c6_skip_and_fallback env0 (some aiX) none pSkip).1 (by decide),
   ((c6_skip_and_fallback env0 none none pSkip).2.1 (Or.inl (by decide))).1,
   ((c6_skip_and_fallback env0 (some aiBad) none pC).2.2.1
      (by with_unfolding_all decide)).1⟩

/-- C7 (counterexample): the claim describes the score as the exact weighted
sum; with three budgets one of which is over limit, the code's `int(25·(2/3))`
truncation yields 84 while the exact sum is 254/3 ≈ 84.67. -/
theorem c7_counterexample :
    ¬ (((Orchestrator.compute_health_score fh0 bgs0 [] []).score : ℚ) =
        healthScoreSpec fh0 bgs0 [] []) := by
  with_unfolding_all decide

/-- C7 (amended): `compute_health_score` returns the weighted sum with the
budget-adherence and goal-progress products truncated toward zero (Python
`int`), the goal average ranging over active goals with positive targets
(½ when none has one), the total clamped into [0, 100]; the score is an
integer in [0, 100] and the label thresholds are ≥80 / ≥60 / ≥40. -/
theorem c7_health_score (fh : FinancialHealth) (budgets : List Budget)
    (anomalies : List AnomalyDetector.Anomaly) (goals : List Goal) :
    (Orchestrator.compute_health_score fh budgets anomalies goals).score =
      healthScoreAmended fh budgets anomalies goals ∧
    0 ≤ (Orchestrator.compute_health_score fh budgets anomalies goals).score ∧
    (Orchestrator.compute_health_score fh budgets anomalies goals).score ≤ 100 ∧
    (Orchestrator.compute_health_score fh budgets anomalies goals).label =
      (if 80 ≤ (Orchestrator.compute_health_score fh budgets anomalies goals).score
       then "Mükemmel"
       else if 60 ≤ (Orchestrator.compute_health_score fh budgets anomalies goals).score
       then "İyi"
       else if 40 ≤ (Orchestrator.compute_health_score fh budgets anomalies goals).score
       then "Orta"
       else "Dikkat Gerekli") := by
  refine ⟨?_, ?_, ?_, ?_⟩
  · show Orchestrator.HealthScore.score _ = _
    unfold Orchestrator.compute_health_score healthScoreAmended trendTierAmended
      anomalyTierAmended
    dsimp only
    rw [savingsTier_code_eq, budgetTier_code_eq, goalTier_code_eq]
  · exact clampZ_nonneg _ _
  · exact clampZ_le _
  · rfl

/-- C8 (Scenario A): six transactions with one merchant, amount 100, one
category. All stdev groups are the constant list `[100]*6` (sample standard
deviation 0, the hypothesis states that property of the external primitive),
the IQR is 0, so no detector triggers and `detect` is empty; and
`recurring_payments` reports the merchant with `monthly_cost` exactly 100. -/
theorem c8_scenarioA (stdev : List ℚ → ℚ)
    (hstd : stdev [100, 100, 100, 100, 100, 100] = 0) :
    AnomalyDetector.detect stdev txs6 = [] ∧
    ((PatternMiner.recurring_payments txs6).map (fun r =>
        r.items.any (fun it => it.merchant == "NFLX" && it.monthly_cost == 100))).getD
      false = true := by
  constructor
  · have hct : AnomalyDetector.statsFor stdev
        (AnomalyDetector.groupAssoc AnomalyDetector.catOf txs6) =
        [("Sub", some ⟨100, stdev [100, 100, 100, 100, 100, 100], 100, 100, 100, 0, 6⟩)] := by
      with_unfolding_all rfl
    have hmt : AnomalyDetector.statsFor stdev
        (AnomalyDetector.groupAssoc AnomalyDetector.merchOf txs6) =
        [("NFLX", some ⟨100, stdev [100, 100, 100, 100, 100, 100], 100, 100, 100, 0, 6⟩)] := by
      with_unfolding_all rfl
    have hgt : AnomalyDetector._calc_stats stdev (txs6.map (fun t => sf t.amount)) =
        some ⟨100, stdev [100, 100, 100, 100, 100, 100], 100, 100, 100, 0, 6⟩ := by
      with_unfolding_all rfl
    rw [hstd] at hct hmt hgt
    unfold AnomalyDetector.detect AnomalyDetector.detectWithKeys
    rw [if_neg (by decide)]
    simp only [hct, hmt, hgt]
    with_unfolding_all decide
  · with_unfolding_all decide

/-- C8 (witness): instantiating the standard-deviation primitive. -/
theorem c8_scenarioA_witness :
    AnomalyDetector.detect (fun _ => 0) txs6 = [] ∧
    ((PatternMiner.recurring_payments txs6).map (fun r =>
        r.items.any (fun it => it.merchant == "NFLX" && it.monthly_cost == 100))).getD
      false = true :=
  c8_scenarioA (fun _ => 0) rfl

/-- The on-track comparison is `p ≤ 1.1·p` for a nonnegative `p`. -/
theorem velocity_ineq (T L D : ℚ) (hT : 0 ≤ T) (hL : 0 < L) (hD : 0 ≤ D) :
    T / L * D ≤ T * (D / L) * (11/10) := by
  have key : T / L * D = T * (D / L) := by ring
  rw [key]
  have hq : 0 ≤ T * (D / L) := mul_nonneg hT (div_nonneg hD hL.le)
  linarith

/-- C9: for transactions with nonnegative (safe-float) amounts, whenever
`spending_velocity` returns a result its `on_track` flag is `true`: the
projection is `total·(days_in_month/latest_day)` and the threshold is the very
same quantity times 1.1, so the comparison is `p ≤ 1.1·p` with `p ≥ 0`. -/
theorem c9_velocity_on_track (txs : List Transaction) (period : String)
    (hnn : ∀ tx ∈ txs, 0 ≤ sf tx.amount) :
    ∀ v, PatternMiner.spending_velocity txs period = some v → v.on_track = true := by
  intro v hv
  unfold PatternMiner.spending_velocity at hv
  split at hv
  · exact absurd hv (by simp)
  · split at hv
    case h_2 => exact absurd hv (by simp)
    case h_1 =>
      rename_i year month hy hm
      dsimp only at hv
      split at hv
      · exact absurd hv (by simp)
      · split at hv
        · exact absurd hv (by simp)
        · split at hv
          case isFalse => exact absurd hv (by simp)
          case isTrue hym =>
            rw [Option.some.injEq] at hv
            subst hv
            simp only [decide_eq_true_eq]
            refine velocity_ineq _ _ _ ?_ ?_ ?_
            · refine List.sum_nonneg ?_
              intro x hx
              rcases List.mem_map.1 hx with ⟨tx, htx, rfl⟩
              exact hnn tx (List.mem_of_mem_filter htx)
            · exact lt_max_iff.mpr (Or.inr one_pos)
            · exact Nat.cast_nonneg _

/-- C9 (witness): a single 50 TL January transaction is on track. -/
theorem c9_velocity_on_track_witness :
    ∃ v, PatternMiner.spending_velocity txsV "2025-01" = some v ∧ v.on_track = true := by
  cases hv : PatternMiner.spending_velocity txsV "2025-01" with
  | none => exact absurd hv (by with_unfolding_all decide)
  | some v => exact ⟨v, rfl, c9_velocity_on_track txsV "2025-01" (by decide) v hv⟩

/-- C10: next-actions are extracted from the full pre-truncation card list
while `insights` is truncated to 12 afterwards; at the concrete payload `p10`
(13 action-less budget alerts followed by health/income cards) the response
contains a next-action whose `source_insight` id appears in no returned
insight card. -/
theorem c10_orphan_next_action :
    ((Orchestrator.run_analysis env0 none p10).next_actions.any fun a =>
      match a.source_insight with
      | some sid =>
        !(((Orchestrator.run_analysis env0 none p10).insights.map (fun c => c.id)).contains
          sid)
      | none => false) = true := by
  with_unfolding_all decide

end FinApp
